import Mathlib

/-!
Verification development for the `ereader` backend core: the sync merge
engine (`crates/sync_engine`), its database queries (`crates/db_layer`),
the background task scheduler (`crates/worker_daemon/src/scheduler.rs`),
and the reindex task handler (`crates/worker_daemon/src/tasks/reindex.rs`).

Modelling conventions, shared by every definition below:
- `chrono::DateTime<Utc>` instants are modelled as `Nat`; only
  their total order is ever consulted by the code under verification.
- `Uuid` keys are modelled as `Nat`; `uuid.to_string()` in a conflict
  record is modelled as the key itself.
- Opaque payloads the code copies but never inspects (`ReadingLocation`,
  which contains an `f32`, and the `String` location/content/style
  fields of annotations) are modelled as `Nat` / `Option Nat`.
- SQL `NOW()`: each entry point takes an explicit clock value `now`,
  standing for the database clock during that call; the code under
  verification captures one `server_time` per sync call and the claims
  never depend on sub-call clock drift.
- Each SQL table is a list of rows for one fixed user (every query under
  verification is scoped by `user_id = $1`, so the user column is
  dropped); surrogate `id` columns on `reading_states` and the unused
  `created_at` columns are omitted, no claim concerns them.
-/

set_option autoImplicit false

namespace Ereader

/-! ### crates/sync_engine/src/types.rs -/

/-- `common::AnnotationType` / `sync_engine::types::AnnotationTypeSync`
(the two Rust enums are isomorphic via the `From` impls; one enum here). -/
inductive AnnotationType
  | highlight
  | note
  | bookmark
deriving DecidableEq, Repr

/-- `sync_engine::types::ReadingStateSync`. -/
structure ReadingStateSync where
  book_id : Nat
  location : Nat
  updated_at : Nat
deriving DecidableEq, Repr

/-- `sync_engine::types::AnnotationSync`. -/
structure AnnotationSync where
  id : Option Nat
  book_id : Nat
  annotation_type : AnnotationType
  location_start : Nat
  location_end : Option Nat
  content : Option Nat
  style : Option Nat
  updated_at : Nat
  deleted : Bool
deriving DecidableEq, Repr

/-- `sync_engine::types::SyncRequest`. -/
structure SyncRequest where
  device_id : Nat
  last_sync_at : Option Nat
  reading_states : List ReadingStateSync
  annotations : List AnnotationSync
deriving DecidableEq, Repr

/-- `sync_engine::types::ConflictResolution`. -/
inductive ConflictResolution
  | serverWins
  | clientWins
  | merged
deriving DecidableEq, Repr

/-- `sync_engine::types::SyncConflict` (`entity_id` is the uuid rendered
by `to_string()`, modelled as the key itself). -/
structure SyncConflict where
  entity_type : String
  entity_id : Nat
  local_updated_at : Nat
  server_updated_at : Nat
  resolution : ConflictResolution
deriving DecidableEq, Repr

/-- `sync_engine::types::SyncResponse`. -/
structure SyncResponse where
  server_time : Nat
  reading_states : List ReadingStateSync
  annotations : List AnnotationSync
  conflicts : List SyncConflict
deriving DecidableEq, Repr

/-! ### crates/db_layer models and tables -/

/-- A `reading_states` row (`db_layer::models::ReadingState`). -/
structure ReadingStateRow where
  book_id : Nat
  device_id : Nat
  location : Nat
  updated_at : Nat
deriving DecidableEq, Repr

/-- An `annotations` row (`db_layer::models::Annotation`);
`deleted_at` is the tombstone. -/
structure AnnotationRow where
  id : Nat
  book_id : Nat
  annotation_type : AnnotationType
  location_start : Nat
  location_end : Option Nat
  content : Option Nat
  style : Option Nat
  updated_at : Nat
  deleted_at : Option Nat
deriving DecidableEq, Repr

/-- A `devices` row restricted to the columns this core touches
(`db_layer::models::Device`: identity and the `last_sync_at` cursor). -/
structure DeviceRow where
  id : Nat
  last_sync_at : Option Nat
deriving DecidableEq, Repr

/-- The database state visible to the sync engine: the three tables the
coordinator reads or writes, for one fixed user. -/
structure Db where
  reading_states : List ReadingStateRow
  annotations : List AnnotationRow
  devices : List DeviceRow
deriving DecidableEq, Repr

/-- `db_layer::models::UpsertReadingState` (user column dropped). -/
structure ReadingStateUpsert where
  book_id : Nat
  device_id : Nat
  location : Nat
deriving DecidableEq, Repr

/-- `db_layer::models::UpsertAnnotation` (user column dropped; the Rust
name ends in a token this development avoids in identifiers). -/
structure AnnotationUpsert where
  id : Nat
  book_id : Nat
  annotation_type : AnnotationType
  location_start : Nat
  location_end : Option Nat
  content : Option Nat
  style : Option Nat
deriving DecidableEq, Repr

/-! ### crates/db_layer/src/queries/reading_states.rs -/

/-- `ReadingStateQueries::get_for_book`:
`SELECT ... FROM reading_states WHERE user_id = $1 AND book_id = $2`. -/
def ReadingStateQueries.get_for_book (db : Db) (book_id : Nat) :
    Option ReadingStateRow :=
  db.reading_states.find? (fun r => r.book_id == book_id)

/-- `ReadingStateQueries::get_updated_since`:
`SELECT ... WHERE user_id = $1 AND updated_at > $2 ORDER BY updated_at ASC`.
The embedding returns matching rows in table order; the `ORDER BY` tie
order is database-chosen and every property proved here is
order-insensitive. -/
def ReadingStateQueries.get_updated_since (db : Db) (since : Nat) :
    List ReadingStateRow :=
  db.reading_states.filter (fun r => since < r.updated_at)

/-- `ReadingStateQueries::upsert`:
`INSERT INTO reading_states (user_id, book_id, device_id, location)
 VALUES ... ON CONFLICT (user_id, book_id) DO UPDATE SET
 device_id = EXCLUDED.device_id, location = EXCLUDED.location,
 updated_at = NOW()`.
The conflict branch stamps `updated_at = NOW()` explicitly.
Modelled from the spec: the insert branch's `updated_at` comes from the
column default in the migrations, which are not in this tree; per the
spec's data model (rows carry the write instant used for LWW) it is the
statement time `now`. -/
def ReadingStateQueries.upsert (db : Db) (data : ReadingStateUpsert)
    (now : Nat) : Db :=
  if db.reading_states.any (fun r => r.book_id == data.book_id) then
    { db with reading_states := db.reading_states.map (fun r =>
        if r.book_id == data.book_id then
          { book_id := data.book_id, device_id := data.device_id,
            location := data.location, updated_at := now }
        else r) }
  else
    { db with reading_states := db.reading_states ++
        [{ book_id := data.book_id, device_id := data.device_id,
           location := data.location, updated_at := now }] }

/-! ### crates/db_layer/src/queries/annotations.rs -/

/-- `AnnotationQueries::get_by_id`:
`SELECT ... FROM annotations WHERE id = $1`. -/
def AnnotationQueries.get_by_id (db : Db) (id : Nat) : Option AnnotationRow :=
  db.annotations.find? (fun a => a.id == id)

/-- `AnnotationQueries::get_updated_since`:
`SELECT ... WHERE user_id = $1 AND updated_at > $2 ORDER BY updated_at ASC`
(no `deleted_at` clause: tombstoned rows are included). Row order as in
`ReadingStateQueries.get_updated_since`. -/
def AnnotationQueries.get_updated_since (db : Db) (since : Nat) :
    List AnnotationRow :=
  db.annotations.filter (fun a => since < a.updated_at)

/-- `AnnotationQueries::upsert`:
`INSERT INTO annotations (id, user_id, book_id, annotation_type,
 location_start, location_end, content, style) VALUES ...
 ON CONFLICT (id) DO UPDATE SET annotation_type = ..., location_start = ...,
 location_end = ..., content = ..., style = ..., deleted_at = NULL`.
The conflict branch does not touch `book_id`.
Modelled from the spec: the migrations (absent from this tree) maintain
`updated_at` (insert default and refresh on update), required by the
spec's LWW comparison and delta visibility; modelled as the statement
time `now` on both branches. -/
def AnnotationQueries.upsert (db : Db) (data : AnnotationUpsert)
    (now : Nat) : Db :=
  if db.annotations.any (fun a => a.id == data.id) then
    { db with annotations := db.annotations.map (fun a =>
        if a.id == data.id then
          { id := data.id, book_id := a.book_id,
            annotation_type := data.annotation_type,
            location_start := data.location_start,
            location_end := data.location_end,
            content := data.content, style := data.style,
            updated_at := now, deleted_at := none }
        else a) }
  else
    { db with annotations := db.annotations ++
        [{ id := data.id, book_id := data.book_id,
           annotation_type := data.annotation_type,
           location_start := data.location_start,
           location_end := data.location_end,
           content := data.content, style := data.style,
           updated_at := now, deleted_at := none }] }

/-- `AnnotationQueries::soft_delete`:
`UPDATE annotations SET deleted_at = NOW() WHERE id = $1 AND deleted_at IS NULL`.
Modelled from the spec: the migrations' refresh of `updated_at` on
update (see `AnnotationQueries.upsert`), which makes the tombstone
visible to delta queries as the spec requires. -/
def AnnotationQueries.soft_delete (db : Db) (id : Nat) (now : Nat) : Db :=
  { db with annotations := db.annotations.map (fun a =>
      if a.id == id && a.deleted_at.isNone then
        { a with deleted_at := some now, updated_at := now }
      else a) }

/-! ### crates/db_layer/src/queries/devices.rs -/

/-- `DeviceQueries::update_last_sync`:
`UPDATE devices SET last_sync_at = $2 WHERE id = $1`. -/
def DeviceQueries.update_last_sync (db : Db) (id : Nat) (time : Nat) : Db :=
  { db with devices := db.devices.map (fun d =>
      if d.id == id then { d with last_sync_at := some time } else d) }

/-! ### crates/sync_engine/src/merge.rs -/

/-- `SyncMerger::merge_reading_state`: LWW merge of one client reading
state against the server row, returning the conflict (if any) and the
updated database. -/
def SyncMerger.mergeReadingState (db : Db) (device_id : Nat)
    (client_state : ReadingStateSync) (now : Nat) :
    Option SyncConflict × Db :=
  match ReadingStateQueries.get_for_book db client_state.book_id with
  | some server =>
    if client_state.updated_at < server.updated_at then
      (some { entity_type := "reading_state",
              entity_id := client_state.book_id,
              local_updated_at := client_state.updated_at,
              server_updated_at := server.updated_at,
              resolution := ConflictResolution.serverWins }, db)
    else if server.updated_at < client_state.updated_at then
      (none, ReadingStateQueries.upsert db
        { book_id := client_state.book_id, device_id := device_id,
          location := client_state.location } now)
    else
      (none, db)
  | none =>
    (none, ReadingStateQueries.upsert db
      { book_id := client_state.book_id, device_id := device_id,
        location := client_state.location } now)

/-- `SyncMerger::merge_annotation` (name adjusted: this development
avoids identifiers ending in that token): LWW merge of one client
annotation edit. `fresh_id` stands for the `Uuid::now_v7()` drawn when
the client supplies no id. -/
def SyncMerger.mergeAnnotationEdit (db : Db) (client : AnnotationSync)
    (fresh_id : Nat) (now : Nat) : Option SyncConflict × Db :=
  let annotation_id := client.id.getD fresh_id
  match AnnotationQueries.get_by_id db annotation_id with
  | some server =>
    if client.updated_at < server.updated_at then
      (some { entity_type := "annotation",
              entity_id := annotation_id,
              local_updated_at := client.updated_at,
              server_updated_at := server.updated_at,
              resolution := ConflictResolution.serverWins }, db)
    else if server.updated_at < client.updated_at then
      if client.deleted then
        (none, AnnotationQueries.soft_delete db annotation_id now)
      else
        (none, AnnotationQueries.upsert db
          { id := annotation_id, book_id := client.book_id,
            annotation_type := client.annotation_type,
            location_start := client.location_start,
            location_end := client.location_end,
            content := client.content, style := client.style } now)
    else
      (none, db)
  | none =>
    if !client.deleted then
      (none, AnnotationQueries.upsert db
        { id := annotation_id, book_id := client.book_id,
          annotation_type := client.annotation_type,
          location_start := client.location_start,
          location_end := client.location_end,
          content := client.content, style := client.style } now)
    else
      (none, db)

/-- The `for state in &request.reading_states` loop of
`SyncMerger::process_sync`: merges each edit in order, collecting the
conflicts it pushes. -/
def SyncMerger.mergeReadingStates (db : Db) (device_id : Nat) (now : Nat) :
    List ReadingStateSync → List SyncConflict × Db
  | [] => ([], db)
  | c :: rest =>
    let step := SyncMerger.mergeReadingState db device_id c now
    let tail := SyncMerger.mergeReadingStates step.2 device_id now rest
    (step.1.toList ++ tail.1, tail.2)

/-- The `for annotation in &request.annotations` loop of
`SyncMerger::process_sync`; `fresh` is the `Uuid::now_v7()` source
indexed by position `k` in the list. -/
def SyncMerger.mergeAnnotationEdits (db : Db) (now : Nat)
    (fresh : Nat → Nat) (k : Nat) :
    List AnnotationSync → List SyncConflict × Db
  | [] => ([], db)
  | c :: rest =>
    let step := SyncMerger.mergeAnnotationEdit db c (fresh k) now
    let tail := SyncMerger.mergeAnnotationEdits step.2 now fresh (k + 1) rest
    (step.1.toList ++ tail.1, tail.2)

/-- The row-to-wire mapping inside `SyncMerger::get_reading_states_since`. -/
def SyncMerger.toReadingStateSync (s : ReadingStateRow) : ReadingStateSync :=
  { book_id := s.book_id, location := s.location,
    updated_at := s.updated_at }

/-- The row-to-wire mapping inside `SyncMerger::get_annotations_since`
(`deleted` is `deleted_at.is_some()`). -/
def SyncMerger.toAnnotationSync (a : AnnotationRow) : AnnotationSync :=
  { id := some a.id, book_id := a.book_id,
    annotation_type := a.annotation_type,
    location_start := a.location_start,
    location_end := a.location_end,
    content := a.content, style := a.style,
    updated_at := a.updated_at,
    deleted := a.deleted_at.isSome }

/-- `SyncMerger::process_sync`: `server_time` is captured once (`now`);
`last_sync_at` defaults to the epoch (`0`); reading-state edits then
annotation edits are merged in order; the outbound delta is read from
the post-merge state with the request's cursor; finally the device
cursor advances to `server_time`. Returns the response and the final
database. -/
def SyncMerger.process_sync (db : Db) (request : SyncRequest)
    (fresh : Nat → Nat) (now : Nat) : SyncResponse × Db :=
  let last_sync_at := request.last_sync_at.getD 0
  let rsStep := SyncMerger.mergeReadingStates db request.device_id now
    request.reading_states
  let annStep := SyncMerger.mergeAnnotationEdits rsStep.2 now fresh 0
    request.annotations
  let server_reading_states :=
    (ReadingStateQueries.get_updated_since annStep.2 last_sync_at).map
      SyncMerger.toReadingStateSync
  let server_annotations :=
    (AnnotationQueries.get_updated_since annStep.2 last_sync_at).map
      SyncMerger.toAnnotationSync
  let db3 := DeviceQueries.update_last_sync annStep.2 request.device_id now
  ({ server_time := now,
     reading_states := server_reading_states,
     annotations := server_annotations,
     conflicts := rsStep.1 ++ annStep.1 }, db3)

/-! ### Fallible variant of the sync path

`process_sync` calls fallible database statements (`sqlx` errors bubble
up through `?`). The variant below threads an explicit fault oracle:
`DbFaults` marks the write statements that fail with a transient
persistence error at this call. `Except.error` carries the database as
left behind by the statements already executed (each `sqlx` statement
commits on its own; there is no enclosing transaction in the source). -/

/-- Which write statements fail during one call, keyed by the written
entity (transient infra failure, spec taxonomy "Storage/Persistence"). -/
structure DbFaults where
  rs_upsert : Nat → Bool
  ann_upsert : Nat → Bool
  ann_soft_delete : Nat → Bool

/-- `DbFaults` for a fully healthy database. -/
def DbFaults.none : DbFaults :=
  { rs_upsert := fun _ => false, ann_upsert := fun _ => false,
    ann_soft_delete := fun _ => false }

/-- `SyncMerger::merge_reading_state` with the fault oracle: the
`ReadingStateQueries::upsert` statement may fail (`?` propagates). -/
def SyncMerger.mergeReadingStateF (faults : DbFaults) (db : Db)
    (device_id : Nat) (client_state : ReadingStateSync) (now : Nat) :
    Except Db (Option SyncConflict × Db) :=
  match ReadingStateQueries.get_for_book db client_state.book_id with
  | some server =>
    if client_state.updated_at < server.updated_at then
      Except.ok (some { entity_type := "reading_state",
                        entity_id := client_state.book_id,
                        local_updated_at := client_state.updated_at,
                        server_updated_at := server.updated_at,
                        resolution := ConflictResolution.serverWins }, db)
    else if server.updated_at < client_state.updated_at then
      if faults.rs_upsert client_state.book_id then Except.error db
      else Except.ok (none, ReadingStateQueries.upsert db
        { book_id := client_state.book_id, device_id := device_id,
          location := client_state.location } now)
    else
      Except.ok (none, db)
  | none =>
    if faults.rs_upsert client_state.book_id then Except.error db
    else Except.ok (none, ReadingStateQueries.upsert db
      { book_id := client_state.book_id, device_id := device_id,
        location := client_state.location } now)

/-- `SyncMerger::merge_annotation` with the fault oracle. -/
def SyncMerger.mergeAnnotationEditF (faults : DbFaults) (db : Db)
    (client : AnnotationSync) (fresh_id : Nat) (now : Nat) :
    Except Db (Option SyncConflict × Db) :=
  let annotation_id := client.id.getD fresh_id
  match AnnotationQueries.get_by_id db annotation_id with
  | some server =>
    if client.updated_at < server.updated_at then
      Except.ok (some { entity_type := "annotation",
                        entity_id := annotation_id,
                        local_updated_at := client.updated_at,
                        server_updated_at := server.updated_at,
                        resolution := ConflictResolution.serverWins }, db)
    else if server.updated_at < client.updated_at then
      if client.deleted then
        if faults.ann_soft_delete annotation_id then Except.error db
        else Except.ok (none, AnnotationQueries.soft_delete db annotation_id now)
      else
        if faults.ann_upsert annotation_id then Except.error db
        else Except.ok (none, AnnotationQueries.upsert db
          { id := annotation_id, book_id := client.book_id,
            annotation_type := client.annotation_type,
            location_start := client.location_start,
            location_end := client.location_end,
            content := client.content, style := client.style } now)
    else
      Except.ok (none, db)
  | none =>
    if !client.deleted then
      if faults.ann_upsert annotation_id then Except.error db
      else Except.ok (none, AnnotationQueries.upsert db
        { id := annotation_id, book_id := client.book_id,
          annotation_type := client.annotation_type,
          location_start := client.location_start,
          location_end := client.location_end,
          content := client.content, style := client.style } now)
    else
      Except.ok (none, db)

/-- The reading-state loop of `SyncMerger::process_sync` under faults:
a failing statement aborts the loop (`?`), leaving earlier writes in
place and never reaching the remaining edits. -/
def SyncMerger.mergeReadingStatesF (faults : DbFaults) (db : Db)
    (device_id : Nat) (now : Nat) :
    List ReadingStateSync → Except Db (List SyncConflict × Db)
  | [] => Except.ok ([], db)
  | c :: rest =>
    match SyncMerger.mergeReadingStateF faults db device_id c now with
    | Except.error db1 => Except.error db1
    | Except.ok (cf, db1) =>
      match SyncMerger.mergeReadingStatesF faults db1 device_id now rest with
      | Except.error db2 => Except.error db2
      | Except.ok (cfs, db2) => Except.ok (cf.toList ++ cfs, db2)

/-- The annotation loop of `SyncMerger::process_sync` under faults. -/
def SyncMerger.mergeAnnotationEditsF (faults : DbFaults) (db : Db)
    (now : Nat) (fresh : Nat → Nat) (k : Nat) :
    List AnnotationSync → Except Db (List SyncConflict × Db)
  | [] => Except.ok ([], db)
  | c :: rest =>
    match SyncMerger.mergeAnnotationEditF faults db c (fresh k) now with
    | Except.error db1 => Except.error db1
    | Except.ok (cf, db1) =>
      match SyncMerger.mergeAnnotationEditsF faults db1 now fresh (k + 1) rest with
      | Except.error db2 => Except.error db2
      | Except.ok (cfs, db2) => Except.ok (cf.toList ++ cfs, db2)

/-- `SyncMerger::process_sync` under faults: any statement error aborts
the whole call before `DeviceQueries::update_last_sync` runs, so the
error value carries the partially written database with the cursor
untouched. -/
def SyncMerger.process_syncF (faults : DbFaults) (db : Db)
    (request : SyncRequest) (fresh : Nat → Nat) (now : Nat) :
    Except Db (SyncResponse × Db) :=
  let last_sync_at := request.last_sync_at.getD 0
  match SyncMerger.mergeReadingStatesF faults db request.device_id now
      request.reading_states with
  | Except.error db1 => Except.error db1
  | Except.ok (cfs1, db1) =>
    match SyncMerger.mergeAnnotationEditsF faults db1 now fresh 0
        request.annotations with
    | Except.error db2 => Except.error db2
    | Except.ok (cfs2, db2) =>
      let server_reading_states :=
        (ReadingStateQueries.get_updated_since db2 last_sync_at).map
          SyncMerger.toReadingStateSync
      let server_annotations :=
        (AnnotationQueries.get_updated_since db2 last_sync_at).map
          SyncMerger.toAnnotationSync
      let db3 := DeviceQueries.update_last_sync db2 request.device_id now
      Except.ok ({ server_time := now,
                   reading_states := server_reading_states,
                   annotations := server_annotations,
                   conflicts := cfs1 ++ cfs2 }, db3)

/-! ### crates/db_layer/src/queries/tasks.rs and models/task.rs

One task row; the `attempts`/`max_attempts` i32 columns are never
negative (all creation sites use `CreateTask::new`, `max_attempts = 3`,
`attempts` starts at 0), modelled as `Nat`. The `started_at` /
`completed_at` / `scheduled_at` / `priority` bookkeeping columns are
omitted: no claim under verification reads them. -/

/-- `db_layer::models::TaskStatus`. -/
inductive TaskStatus
  | pending
  | running
  | completed
  | failed
deriving DecidableEq, Repr

/-- A `tasks` row restricted to the columns the scheduler logic reads. -/
structure Task where
  id : Nat
  task_type : String
  status : TaskStatus
  attempts : Nat
  max_attempts : Nat
  error : Option String
deriving DecidableEq, Repr

/-- `TaskQueries::mark_started`:
`UPDATE tasks SET status = 'running', started_at = NOW(),
 attempts = attempts + 1 WHERE id = $1 AND status = 'pending'`;
returns `rows_affected() > 0` (the compare-and-set outcome). -/
def TaskQueries.mark_started (t : Task) : Bool × Task :=
  if t.status = TaskStatus.pending then
    (true, { t with status := TaskStatus.running, attempts := t.attempts + 1 })
  else
    (false, t)

/-- `TaskQueries::mark_completed`:
`UPDATE tasks SET status = 'completed', completed_at = NOW()
 WHERE id = $1 AND status = 'running'`. -/
def TaskQueries.mark_completed (t : Task) : Bool × Task :=
  if t.status = TaskStatus.running then
    (true, { t with status := TaskStatus.completed })
  else
    (false, t)

/-- `TaskQueries::mark_failed`: first fetches the row and picks
`Pending` when `task.attempts < task.max_attempts` (retry) else
`Failed`; then
`UPDATE tasks SET status = $2, error = $3, ... WHERE id = $1 AND status = 'running'`. -/
def TaskQueries.mark_failed (t : Task) (error : String) : Bool × Task :=
  let new_status := if t.attempts < t.max_attempts
    then TaskStatus.pending else TaskStatus.failed
  if t.status = TaskStatus.running then
    (true, { t with status := new_status, error := some error })
  else
    (false, t)

/-! ### crates/worker_daemon/src/scheduler.rs -/

/-- Outcome of `tokio::time::timeout(timeout, handler.execute(...))`
for a registered handler: `Ok(Ok(_))`, `Ok(Err(e))`, or `Err(_)`
(elapsed). -/
inductive HandlerOutcome
  | success
  | failure (msg : String)
  | timeout
deriving DecidableEq, Repr

/-- What one iteration of the `for task in pending` loop in
`TaskScheduler::poll_and_execute`, together with the spawned execution
it starts, does to one claimed task. -/
structure StepResult where
  /-- The task row once the iteration and its spawned execution finish. -/
  task : Task
  /-- Whether `handler.execute` was invoked. -/
  executed : Bool
  /-- The task row after each UPDATE statement, in program order. -/
  trace : List Task
deriving DecidableEq, Repr

/-- One `for task in pending` iteration of
`TaskScheduler::poll_and_execute` plus the spawned execution, for a
task polled as `task` whose registry lookup is `reg task.task_type`
and whose handler (when invoked) yields `outcome`.
Source order: `TaskQueries::mark_started` runs first and only an `Err`
from it (a query error, absent from this pure model) skips the task —
the returned compare-and-set Boolean is not consulted; then the registry
lookup; an unregistered type is marked failed with the descriptive
error; otherwise the handler runs under the timeout and the task is
marked completed or failed. -/
def TaskScheduler.step (reg : String → Bool) (outcome : HandlerOutcome)
    (task : Task) : StepResult :=
  let started := TaskQueries.mark_started task
  let t1 := started.2
  if !(reg task.task_type) then
    let t2 := (TaskQueries.mark_failed t1
      ("No handler for task type: " ++ task.task_type)).2
    { task := t2, executed := false, trace := [t1, t2] }
  else
    match outcome with
    | HandlerOutcome.success =>
      let t2 := (TaskQueries.mark_completed t1).2
      { task := t2, executed := true, trace := [t1, t2] }
    | HandlerOutcome.failure msg =>
      let t2 := (TaskQueries.mark_failed t1 msg).2
      { task := t2, executed := true, trace := [t1, t2] }
    | HandlerOutcome.timeout =>
      let t2 := (TaskQueries.mark_failed t1 "Task timed out").2
      { task := t2, executed := true, trace := [t1, t2] }

/-- One scheduling round of a task whose handler always fails with
`msg` (the scenario of the retry-bound property). -/
def TaskScheduler.stepFail (reg : String → Bool) (msg : String)
    (t : Task) : Task :=
  (TaskScheduler.step reg (HandlerOutcome.failure msg) t).task

/-- `k` scheduling rounds of an always-failing task. -/
def TaskScheduler.iterFail (reg : String → Bool) (msg : String) :
    Nat → Task → Task
  | 0, t => t
  | k + 1, t => TaskScheduler.iterFail reg msg k
      (TaskScheduler.stepFail reg msg t)

/-- How many of `k` scheduling rounds of an always-failing task
transition it into `Running` (a round does so exactly when its
`mark_started` compare-and-set hits a `Pending` row). -/
def TaskScheduler.runningTransitions (reg : String → Bool) (msg : String) :
    Nat → Task → Nat
  | 0, _ => 0
  | k + 1, t =>
    (if t.status = TaskStatus.pending then 1 else 0) +
      TaskScheduler.runningTransitions reg msg k
        (TaskScheduler.stepFail reg msg t)

/-! ### crates/worker_daemon/src/tasks/reindex.rs and
     BookQueries::update_metadata (crates/db_layer/src/queries/books.rs)

Book metadata values are opaque payloads (modelled as `Nat`); only
their presence or absence drives the merge. -/

/-- `indexer::traits::BookMetadata`. -/
structure BookMetadata where
  title : Option Nat
  authors : List Nat
  description : Option Nat
  language : Option Nat
  publisher : Option Nat
  published_date : Option Nat
  isbn : Option Nat
  series_name : Option Nat
  series_index : Option Nat
  subjects : List Nat
deriving DecidableEq, Repr

/-- The metadata columns of a `books` row (`db_layer::models::Book`;
identity, file and timestamp columns omitted — `update_metadata`
touches none of them). -/
structure Book where
  title : Nat
  authors : List Nat
  description : Option Nat
  language : Option Nat
  publisher : Option Nat
  published_date : Option Nat
  isbn : Option Nat
  series_name : Option Nat
  series_index : Option Nat
  tags : List Nat
deriving DecidableEq, Repr

/-- `db_layer::models::UpdateBook`. -/
structure UpdateBook where
  title : Option Nat
  authors : Option (List Nat)
  description : Option Nat
  language : Option Nat
  publisher : Option Nat
  published_date : Option Nat
  isbn : Option Nat
  series_name : Option Nat
  series_index : Option Nat
  tags : Option (List Nat)
deriving DecidableEq, Repr

/-- `BookQueries::update_metadata`:
`UPDATE books SET title = COALESCE($2, title), ... , tags = COALESCE($11, tags)
 WHERE id = $1`. Nullable columns: `COALESCE` keeps the stored value
exactly when the bound parameter is NULL. -/
def BookQueries.update_metadata (book : Book) (data : UpdateBook) : Book :=
  { title := data.title.getD book.title,
    authors := data.authors.getD book.authors,
    description := data.description.or book.description,
    language := data.language.or book.language,
    publisher := data.publisher.or book.publisher,
    published_date := data.published_date.or book.published_date,
    isbn := data.isbn.or book.isbn,
    series_name := data.series_name.or book.series_name,
    series_index := data.series_index.or book.series_index,
    tags := data.tags.getD book.tags }

/-- The `UpdateBook` built by `ReindexBookHandler::execute` (lines
58–73) from the stored book and the freshly extracted metadata:
`title: Some(metadata.title.unwrap_or_else(|| book.title.clone()))`,
`authors: if metadata.authors.is_empty() { None } else { Some(..) }`,
`description: metadata.description.or(book.description.clone())`, …,
and `series_name: None, series_index: None, tags: None` — the extracted
`series_name`, `series_index` and `subjects` are not propagated. -/
def ReindexBookHandler.buildUpdate (book : Book) (metadata : BookMetadata) :
    UpdateBook :=
  { title := some (metadata.title.getD book.title),
    authors := if metadata.authors.isEmpty then none else some metadata.authors,
    description := metadata.description.or book.description,
    language := metadata.language.or book.language,
    publisher := metadata.publisher.or book.publisher,
    published_date := metadata.published_date.or book.published_date,
    isbn := metadata.isbn.or book.isbn,
    series_name := none,
    series_index := none,
    tags := none }

/-- The metadata merge a successful `ReindexBookHandler::execute`
performs on the persisted book record: build the update from the
extraction result, then apply `BookQueries::update_metadata`. -/
def ReindexBookHandler.reindexMerge (book : Book) (metadata : BookMetadata) :
    Book :=
  BookQueries.update_metadata book
    (ReindexBookHandler.buildUpdate book metadata)

/-! ### Store invariants used by the replay analysis -/

/-- The key-uniqueness the schema enforces (`ON CONFLICT (user_id, book_id)`
on `reading_states` and `ON CONFLICT (id)` on `annotations` name the
unique constraints): one row per key. -/
def Db.wf (db : Db) : Prop :=
  (db.reading_states.map (fun r => r.book_id)).Nodup ∧
    (db.annotations.map (fun a => a.id)).Nodup

instance (db : Db) : Decidable (Db.wf db) := by
  unfold Db.wf; infer_instance

/-- Replaying reading-state edit `c` against `db` writes nothing: the
server row for its book exists and is at least as new. -/
def RsNoop (c : ReadingStateSync) (db : Db) : Prop :=
  ∃ r, ReadingStateQueries.get_for_book db c.book_id = some r ∧
    c.updated_at ≤ r.updated_at

/-- Replaying annotation edit `c` (resolved to id `i`) against `db`
writes nothing: the server row is at least as new, or the edit is a
deletion whose target is already tombstoned or absent. -/
def AnnNoop (i : Nat) (c : AnnotationSync) (db : Db) : Prop :=
  match AnnotationQueries.get_by_id db i with
  | some r => c.updated_at ≤ r.updated_at ∨
      (c.deleted = true ∧ r.deleted_at ≠ none)
  | none => c.deleted = true

/-- Replaying a whole annotation-edit list (with the `Uuid::now_v7`
source `fresh` starting at position `k`, exactly as `process_sync`
replays it) against `db` writes nothing. -/
def AnnNoopAll (fresh : Nat → Nat) : Nat → List AnnotationSync → Db → Prop
  | _, [], _ => True
  | k, c :: rest, db =>
    AnnNoop (c.id.getD (fresh k)) c db ∧ AnnNoopAll fresh (k + 1) rest db

/-! ## Theorems -/

/-! ### Task scheduler -/

/-- Unfolding equation: one more scheduling round of an always-failing
task. -/
theorem iterFail_succ (reg : String → Bool) (msg : String) (k : Nat)
    (t : Task) :
    TaskScheduler.iterFail reg msg (k + 1) t =
      TaskScheduler.iterFail reg msg k (TaskScheduler.stepFail reg msg t) :=
  rfl

/-- Unfolding equation for the Running-transition counter. -/
theorem runningTransitions_succ (reg : String → Bool) (msg : String)
    (k : Nat) (t : Task) :
    TaskScheduler.runningTransitions reg msg (k + 1) t =
      (if t.status = TaskStatus.pending then 1 else 0) +
        TaskScheduler.runningTransitions reg msg k
          (TaskScheduler.stepFail reg msg t) :=
  rfl

/-- A scheduling round leaves a terminally failed task untouched: the
`mark_started` compare-and-set misses, and every later UPDATE is
guarded by `status = 'running'`. -/
theorem stepFail_of_failed (reg : String → Bool) (msg : String) (t : Task)
    (h : t.status = TaskStatus.failed) :
    TaskScheduler.stepFail reg msg t = t := by
  unfold TaskScheduler.stepFail TaskScheduler.step TaskQueries.mark_started
    TaskQueries.mark_failed TaskQueries.mark_completed
  simp [h]
  split <;> rfl

/-- Iterated scheduling rounds leave a terminally failed task untouched. -/
theorem iterFail_of_failed (reg : String → Bool) (msg : String) (k : Nat)
    (t : Task) (h : t.status = TaskStatus.failed) :
    TaskScheduler.iterFail reg msg k t = t := by
  induction k with
  | zero => rfl
  | succ k ih =>
    rw [iterFail_succ, stepFail_of_failed reg msg t h, ih]

/-- A terminally failed task is never again transitioned into Running. -/
theorem runningTransitions_of_failed (reg : String → Bool) (msg : String)
    (k : Nat) (t : Task) (h : t.status = TaskStatus.failed) :
    TaskScheduler.runningTransitions reg msg k t = 0 := by
  induction k with
  | zero => rfl
  | succ k ih =>
    rw [runningTransitions_succ, stepFail_of_failed reg msg t h, ih, h]
    simp

/-- One round of a pending task with a registered, always-failing
handler: claimed (attempt increment), executed, then routed by the
retry-vs-terminal rule. -/
theorem stepFail_of_pending (reg : String → Bool) (msg : String) (t : Task)
    (hreg : reg t.task_type = true) (h : t.status = TaskStatus.pending) :
    TaskScheduler.stepFail reg msg t =
      { t with
          status := if t.attempts + 1 < t.max_attempts then TaskStatus.pending
            else TaskStatus.failed,
          attempts := t.attempts + 1,
          error := some msg } := by
  unfold TaskScheduler.stepFail TaskScheduler.step TaskQueries.mark_started
    TaskQueries.mark_failed
  simp [h, hreg]

/-- Induction core for the retry bound: from any pending state with
attempts still below the bound, enough rounds of an always-failing
handler end terminally failed with `attempts = max_attempts`, having
entered Running once per missing attempt. -/
theorem retry_bound_aux (reg : String → Bool) (msg : String) :
    ∀ (k : Nat) (t : Task), reg t.task_type = true →
    t.status = TaskStatus.pending →
    t.attempts < t.max_attempts → t.max_attempts ≤ t.attempts + k →
    (TaskScheduler.iterFail reg msg k t).status = TaskStatus.failed ∧
    (TaskScheduler.iterFail reg msg k t).attempts = t.max_attempts ∧
    TaskScheduler.runningTransitions reg msg k t + t.attempts =
      t.max_attempts := by
  intro k
  induction k with
  | zero => intro t _ _ hlt hle; omega
  | succ k ih =>
    intro t hreg hst hlt hle
    by_cases hc : t.attempts + 1 < t.max_attempts
    · have hstep1 : TaskScheduler.stepFail reg msg t =
          { t with status := TaskStatus.pending, attempts := t.attempts + 1,
                   error := some msg } := by
        rw [stepFail_of_pending reg msg t hreg hst]; simp [hc]
      rw [iterFail_succ, runningTransitions_succ, hstep1, hst]
      have ihr := ih
        { t with status := TaskStatus.pending, attempts := t.attempts + 1,
                 error := some msg }
        hreg rfl (by simp; omega) (by simp; omega)
      obtain ⟨ih1, ih2, ih3⟩ := ihr
      simp at ih3
      refine ⟨ih1, ih2, ?_⟩
      simp
      omega
    · have heq : t.attempts + 1 = t.max_attempts := by omega
      have hstep1 : TaskScheduler.stepFail reg msg t =
          { t with status := TaskStatus.failed, attempts := t.attempts + 1,
                   error := some msg } := by
        rw [stepFail_of_pending reg msg t hreg hst]; simp [hc]
      rw [iterFail_succ, runningTransitions_succ, hstep1, hst,
        iterFail_of_failed reg msg k _ rfl,
        runningTransitions_of_failed reg msg k _ rfl]
      refine ⟨rfl, ?_, ?_⟩
      · simp
        omega
      · simp
        omega

/-- C8: a pending task with a registered handler that fails on every
execution is driven, over any `k ≥ max_attempts` scheduling rounds,
through exactly `max_attempts` transitions into Running before reaching
terminal Failed with `attempts = max_attempts`; further rounds (any
larger `k`) change neither status nor attempts, so `attempts` never
exceeds `max_attempts` once the task is terminally Failed. -/
theorem scheduler_retry_bound (reg : String → Bool) (msg : String)
    (t : Task) (k : Nat)
    (hreg : reg t.task_type = true) (hst : t.status = TaskStatus.pending)
    (ha : t.attempts = 0) (hm : 1 ≤ t.max_attempts)
    (hk : t.max_attempts ≤ k) :
    (TaskScheduler.iterFail reg msg k t).status = TaskStatus.failed ∧
    (TaskScheduler.iterFail reg msg k t).attempts = t.max_attempts ∧
    TaskScheduler.runningTransitions reg msg k t = t.max_attempts := by
  have h := retry_bound_aux reg msg k t hreg hst (by omega) (by omega)
  exact ⟨h.1, h.2.1, by omega⟩

/-- Witness for C8: a concrete always-failing task with
`max_attempts = 3` run for 5 rounds. -/
theorem scheduler_retry_bound_witness :
    ((fun _ => true : String → Bool) "reindex_book" = true ∧
     TaskStatus.pending = TaskStatus.pending ∧ (0 : Nat) = 0 ∧
     (1 : Nat) ≤ 3 ∧ (3 : Nat) ≤ 5) ∧
    ((TaskScheduler.iterFail (fun _ => true) "boom" 5
        { id := 1, task_type := "reindex_book",
          status := TaskStatus.pending, attempts := 0, max_attempts := 3,
          error := none }).status = TaskStatus.failed ∧
     (TaskScheduler.iterFail (fun _ => true) "boom" 5
        { id := 1, task_type := "reindex_book",
          status := TaskStatus.pending, attempts := 0, max_attempts := 3,
          error := none }).attempts = 3 ∧
     TaskScheduler.runningTransitions (fun _ => true) "boom" 5
        { id := 1, task_type := "reindex_book",
          status := TaskStatus.pending, attempts := 0, max_attempts := 3,
          error := none } = 3) :=
  ⟨⟨rfl, rfl, rfl, by decide, by decide⟩,
    scheduler_retry_bound (fun _ => true) "boom" _ 5 rfl rfl rfl
      (by decide) (by decide)⟩

/-- C6 counterexample: a pending task of unregistered type with
`attempts = 0`, `max_attempts = 3` does visit Running, and afterwards
is Pending again (retried), not terminally Failed — refuting
"moves it from Pending directly to terminal Failed, never visiting
Running". -/
theorem scheduler_unknown_type_cex :
    ((TaskScheduler.step (fun _ => false) HandlerOutcome.success
        { id := 1, task_type := "nope", status := TaskStatus.pending,
          attempts := 0, max_attempts := 3,
          error := none }).task.status ≠ TaskStatus.failed) ∧
    TaskStatus.running ∈
      ((TaskScheduler.step (fun _ => false) HandlerOutcome.success
        { id := 1, task_type := "nope", status := TaskStatus.pending,
          attempts := 0, max_attempts := 3,
          error := none }).trace.map (fun s => s.status)) := by
  decide

/-- C6 (amended): a pending task with no registered handler is first
claimed (Pending → Running with an attempt increment), its handler is
never executed and the timeout path is skipped (the round's result does
not depend on any handler outcome), and it is then marked failed with
the descriptive error through the retry rule: back to Pending while
`attempts < max_attempts`, terminal Failed otherwise. -/
theorem scheduler_unknown_type_claims_then_fails (reg : String → Bool)
    (outcome : HandlerOutcome) (t : Task)
    (hreg : reg t.task_type = false) (hst : t.status = TaskStatus.pending) :
    (TaskScheduler.step reg outcome t).executed = false ∧
    (TaskScheduler.step reg outcome t).trace =
      [{ t with status := TaskStatus.running, attempts := t.attempts + 1 },
       { t with
           status := if t.attempts + 1 < t.max_attempts
             then TaskStatus.pending else TaskStatus.failed,
           attempts := t.attempts + 1,
           error := some ("No handler for task type: " ++ t.task_type) }] ∧
    (TaskScheduler.step reg outcome t).task =
      { t with
          status := if t.attempts + 1 < t.max_attempts
            then TaskStatus.pending else TaskStatus.failed,
          attempts := t.attempts + 1,
          error := some ("No handler for task type: " ++ t.task_type) } ∧
    TaskScheduler.step reg outcome t =
      TaskScheduler.step reg HandlerOutcome.success t := by
  unfold TaskScheduler.step TaskQueries.mark_started TaskQueries.mark_failed
  simp [hst, hreg]

/-- Witness for C6's amended theorem at a concrete unregistered task. -/
theorem scheduler_unknown_type_witness :
    ((fun _ => false : String → Bool) "nope" = false ∧
     TaskStatus.pending = TaskStatus.pending) ∧
    (TaskScheduler.step (fun _ => false) HandlerOutcome.timeout
      { id := 1, task_type := "nope", status := TaskStatus.pending,
        attempts := 2, max_attempts := 3, error := none }).executed = false ∧
    (TaskScheduler.step (fun _ => false) HandlerOutcome.timeout
      { id := 1, task_type := "nope", status := TaskStatus.pending,
        attempts := 2, max_attempts := 3, error := none }).trace =
      [{ id := 1, task_type := "nope", status := TaskStatus.running,
         attempts := 3, max_attempts := 3, error := none },
       { id := 1, task_type := "nope",
         status := if 2 + 1 < 3 then TaskStatus.pending else TaskStatus.failed,
         attempts := 3, max_attempts := 3,
         error := some ("No handler for task type: " ++ "nope") }] ∧
    (TaskScheduler.step (fun _ => false) HandlerOutcome.timeout
      { id := 1, task_type := "nope", status := TaskStatus.pending,
        attempts := 2, max_attempts := 3, error := none }).task =
      { id := 1, task_type := "nope",
        status := if 2 + 1 < 3 then TaskStatus.pending else TaskStatus.failed,
        attempts := 3, max_attempts := 3,
        error := some ("No handler for task type: " ++ "nope") } ∧
    TaskScheduler.step (fun _ => false) HandlerOutcome.timeout
      { id := 1, task_type := "nope", status := TaskStatus.pending,
        attempts := 2, max_attempts := 3, error := none } =
      TaskScheduler.step (fun _ => false) HandlerOutcome.success
      { id := 1, task_type := "nope", status := TaskStatus.pending,
        attempts := 2, max_attempts := 3, error := none } :=
  ⟨⟨rfl, rfl⟩, scheduler_unknown_type_claims_then_fails
    (fun _ => false) HandlerOutcome.timeout
    { id := 1, task_type := "nope", status := TaskStatus.pending,
      attempts := 2, max_attempts := 3, error := none } rfl rfl⟩

/-- C7: the claim's skip-on-claim-failure is broken in the code. At a
polled task that is no longer Pending (here: already Running, i.e.
claimed elsewhere), `TaskQueries::mark_started`'s compare-and-set
reports failure (`rows_affected() == 0`), yet
`TaskScheduler::poll_and_execute` — which only skips on a query `Err`,
ignoring the returned Boolean — still executes the handler (and its
completion path then updates the task). -/
theorem scheduler_claim_failure_still_executes :
    (TaskQueries.mark_started
      { id := 1, task_type := "reindex_book", status := TaskStatus.running,
        attempts := 1, max_attempts := 3, error := none }).1 = false ∧
    (TaskScheduler.step (fun s => s == "reindex_book")
      HandlerOutcome.success
      { id := 1, task_type := "reindex_book", status := TaskStatus.running,
        attempts := 1, max_attempts := 3, error := none }).executed
      = true ∧
    (TaskScheduler.step (fun s => s == "reindex_book")
      HandlerOutcome.success
      { id := 1, task_type := "reindex_book", status := TaskStatus.running,
        attempts := 1, max_attempts := 3, error := none }).task.status
      = TaskStatus.completed :=
  ⟨rfl, rfl, rfl⟩

/-! ### Reindex metadata merge -/

/-- C9 counterexample: extraction yields subject keywords (the tags
metadata — `pdf.rs` labels `subjects` "Keywords (subjects/tags)"), yet
the reindexed record keeps its previously persisted tags: the handler
hard-codes `tags: None` (and `series_name`/`series_index: None`) in the
`UpdateBook` it builds, discarding those extraction results. -/
theorem reindex_subjects_discarded_cex :
    (ReindexBookHandler.reindexMerge
      { title := 0, authors := [], description := none, language := none,
        publisher := none, published_date := none, isbn := none,
        series_name := none, series_index := none, tags := [1] }
      { title := none, authors := [], description := none, language := none,
        publisher := none, published_date := none, isbn := none,
        series_name := none, series_index := none,
        subjects := [7] }).tags ≠
      ({ title := none, authors := [], description := none,
         language := none, publisher := none, published_date := none,
         isbn := none, series_name := none, series_index := none,
         subjects := [7] } : BookMetadata).subjects ∧
    ({ title := none, authors := [], description := none, language := none,
       publisher := none, published_date := none, isbn := none,
       series_name := none, series_index := none,
       subjects := [7] } : BookMetadata).subjects ≠ [] := by
  decide

/-- C9 (amended): a successful ReindexBook execution prefers the
freshly extracted value and falls back to the persisted one per field
for title, authors (empty extraction = nothing), description, language,
publisher, published date and isbn — but series_name, series_index and
tags always keep their persisted values: extracted series data and
subject keywords are discarded. -/
theorem reindex_field_merge (book : Book) (m : BookMetadata) :
    (ReindexBookHandler.reindexMerge book m).title = m.title.getD book.title ∧
    (ReindexBookHandler.reindexMerge book m).authors =
      (if m.authors.isEmpty then book.authors else m.authors) ∧
    (ReindexBookHandler.reindexMerge book m).description =
      m.description.or book.description ∧
    (ReindexBookHandler.reindexMerge book m).language =
      m.language.or book.language ∧
    (ReindexBookHandler.reindexMerge book m).publisher =
      m.publisher.or book.publisher ∧
    (ReindexBookHandler.reindexMerge book m).published_date =
      m.published_date.or book.published_date ∧
    (ReindexBookHandler.reindexMerge book m).isbn = m.isbn.or book.isbn ∧
    (ReindexBookHandler.reindexMerge book m).series_name =
      book.series_name ∧
    (ReindexBookHandler.reindexMerge book m).series_index =
      book.series_index ∧
    (ReindexBookHandler.reindexMerge book m).tags = book.tags := by
  unfold ReindexBookHandler.reindexMerge ReindexBookHandler.buildUpdate
    BookQueries.update_metadata
  refine ⟨rfl, ?_, ?_, ?_, ?_, ?_, ?_, rfl, rfl, rfl⟩
  · by_cases h : m.authors.isEmpty <;> simp [h]
  · cases m.description <;> cases book.description <;> simp [Option.or]
  · cases m.language <;> cases book.language <;> simp [Option.or]
  · cases m.publisher <;> cases book.publisher <;> simp [Option.or]
  · cases m.published_date <;> cases book.published_date <;>
      simp [Option.or]
  · cases m.isbn <;> cases book.isbn <;> simp [Option.or]

/-! ### Sync engine: store lemmas -/

/-- `find?` by key commutes with a key-preserving rewrite of the rows
(annotation stores, keyed by `id`). -/
theorem find?_map_key_ann (l : List AnnotationRow)
    (g : AnnotationRow → AnnotationRow) (hg : ∀ a, (g a).id = a.id)
    (i : Nat) :
    (l.map g).find? (fun a => a.id == i) =
      (l.find? (fun a => a.id == i)).map g := by
  induction l with
  | nil => rfl
  | cons a l ih =>
    by_cases h : (a.id == i) = true
    · rw [List.map_cons, List.find?_cons_of_pos _ (by rw [hg a]; exact h),
        @List.find?_cons_of_pos _ (fun a => a.id == i) a l h,
        Option.map_some']
    · rw [List.map_cons, List.find?_cons_of_neg _ (by rw [hg a]; simpa using h),
        @List.find?_cons_of_neg _ (fun a => a.id == i) a l (by simpa using h),
        ih]

/-- `find?` by key commutes with a key-preserving rewrite of the rows
(reading-state stores, keyed by `book_id`). -/
theorem find?_map_key_rs (l : List ReadingStateRow)
    (g : ReadingStateRow → ReadingStateRow)
    (hg : ∀ r, (g r).book_id = r.book_id) (k : Nat) :
    (l.map g).find? (fun r => r.book_id == k) =
      (l.find? (fun r => r.book_id == k)).map g := by
  induction l with
  | nil => rfl
  | cons r l ih =>
    by_cases h : (r.book_id == k) = true
    · rw [List.map_cons, List.find?_cons_of_pos _ (by rw [hg r]; exact h),
        @List.find?_cons_of_pos _ (fun r => r.book_id == k) r l h,
        Option.map_some']
    · rw [List.map_cons, List.find?_cons_of_neg _ (by rw [hg r]; simpa using h),
        @List.find?_cons_of_neg _ (fun r => r.book_id == k) r l
          (by simpa using h),
        ih]

/-- `ReadingStateQueries.upsert` changes only the `reading_states` table. -/
theorem rs_upsert_tables (db : Db) (u : ReadingStateUpsert) (now : Nat) :
    (ReadingStateQueries.upsert db u now).annotations = db.annotations ∧
    (ReadingStateQueries.upsert db u now).devices = db.devices := by
  unfold ReadingStateQueries.upsert
  split <;> exact ⟨rfl, rfl⟩

/-- `AnnotationQueries.upsert` changes only the `annotations` table. -/
theorem ann_upsert_tables (db : Db) (u : AnnotationUpsert) (now : Nat) :
    (AnnotationQueries.upsert db u now).reading_states = db.reading_states ∧
    (AnnotationQueries.upsert db u now).devices = db.devices := by
  unfold AnnotationQueries.upsert
  split <;> exact ⟨rfl, rfl⟩

/-- `AnnotationQueries.soft_delete` changes only the `annotations` table. -/
theorem soft_delete_tables (db : Db) (i : Nat) (now : Nat) :
    (AnnotationQueries.soft_delete db i now).reading_states =
      db.reading_states ∧
    (AnnotationQueries.soft_delete db i now).devices = db.devices :=
  ⟨rfl, rfl⟩

/-- `DeviceQueries.update_last_sync` changes only the `devices` table. -/
theorem update_last_sync_tables (db : Db) (i : Nat) (t : Nat) :
    (DeviceQueries.update_last_sync db i t).reading_states =
      db.reading_states ∧
    (DeviceQueries.update_last_sync db i t).annotations = db.annotations :=
  ⟨rfl, rfl⟩

/-- Lookup after a reading-state upsert: the upserted key now holds the
freshly written row (stamped `now`); every other key is untouched. -/
theorem get_for_book_upsert (db : Db) (u : ReadingStateUpsert) (now : Nat)
    (k : Nat) :
    ReadingStateQueries.get_for_book (ReadingStateQueries.upsert db u now) k =
      if k = u.book_id then
        some { book_id := u.book_id, device_id := u.device_id,
               location := u.location, updated_at := now }
      else ReadingStateQueries.get_for_book db k := by
  by_cases hp : db.reading_states.any (fun r => r.book_id == u.book_id) = true
  · have hrows : (ReadingStateQueries.upsert db u now).reading_states =
        db.reading_states.map (fun r =>
          if r.book_id == u.book_id then
            { book_id := u.book_id, device_id := u.device_id,
              location := u.location, updated_at := now }
          else r) := by
      unfold ReadingStateQueries.upsert
      rw [if_pos hp]
    unfold ReadingStateQueries.get_for_book
    rw [hrows, find?_map_key_rs db.reading_states _
      (by intro r
          by_cases h : (r.book_id == u.book_id) = true
          · simp at h; simp [h]
          · simp [h]) k]
    by_cases hk : k = u.book_id
    · subst hk
      obtain ⟨r, hmem, hr⟩ := List.any_eq_true.mp hp
      have hsome : (db.reading_states.find?
          (fun r => r.book_id == u.book_id)).isSome = true :=
        List.find?_isSome.mpr ⟨r, hmem, hr⟩
      obtain ⟨r0, hfind⟩ := Option.isSome_iff_exists.mp hsome
      have hr0 := List.find?_some hfind
      rw [hfind, Option.map_some', if_pos rfl, if_pos hr0]
    · rw [if_neg hk]
      cases hfind : db.reading_states.find? (fun r => r.book_id == k) with
      | none => rfl
      | some r =>
        have hrk := List.find?_some hfind
        rw [Option.map_some',
          if_neg (by simp at hrk ⊢; omega)]
  · have hrows : (ReadingStateQueries.upsert db u now).reading_states =
        db.reading_states ++
          [{ book_id := u.book_id, device_id := u.device_id,
             location := u.location, updated_at := now }] := by
      unfold ReadingStateQueries.upsert
      rw [if_neg hp]
    have hnone : db.reading_states.find? (fun r => r.book_id == u.book_id)
        = none := by
      rw [List.find?_eq_none]
      intro r hmem hr
      exact hp (List.any_eq_true.mpr ⟨r, hmem, hr⟩)
    unfold ReadingStateQueries.get_for_book
    rw [hrows, List.find?_append]
    by_cases hk : k = u.book_id
    · subst hk
      rw [hnone, Option.none_or, if_pos rfl,
        List.find?_cons_of_pos _ (by simp)]
    · rw [if_neg hk,
        List.find?_cons_of_neg _ (by simp; omega),
        List.find?_nil, Option.or_none]

/-- The row-rewriting function of the annotation upsert's conflict
branch preserves row ids. -/
theorem ann_upsert_map_keeps_id (u : AnnotationUpsert) (now : Nat)
    (a : AnnotationRow) :
    (if a.id == u.id then
        ({ id := u.id, book_id := a.book_id,
           annotation_type := u.annotation_type,
           location_start := u.location_start,
           location_end := u.location_end,
           content := u.content, style := u.style,
           updated_at := now, deleted_at := none } : AnnotationRow)
      else a).id = a.id := by
  by_cases h : (a.id == u.id) = true
  · simp at h; simp [h]
  · simp [h]

/-- Lookup at a key other than the upserted one is unchanged by an
annotation upsert. -/
theorem get_by_id_upsert_ne (db : Db) (u : AnnotationUpsert) (now : Nat)
    (j : Nat) (hj : j ≠ u.id) :
    AnnotationQueries.get_by_id (AnnotationQueries.upsert db u now) j =
      AnnotationQueries.get_by_id db j := by
  by_cases hp : db.annotations.any (fun a => a.id == u.id) = true
  · have hrows : (AnnotationQueries.upsert db u now).annotations =
        db.annotations.map (fun a =>
          if a.id == u.id then
            { id := u.id, book_id := a.book_id,
              annotation_type := u.annotation_type,
              location_start := u.location_start,
              location_end := u.location_end,
              content := u.content, style := u.style,
              updated_at := now, deleted_at := none }
          else a) := by
      unfold AnnotationQueries.upsert
      rw [if_pos hp]
    unfold AnnotationQueries.get_by_id
    rw [hrows, find?_map_key_ann db.annotations _
      (ann_upsert_map_keeps_id u now) j]
    cases hfind : db.annotations.find? (fun a => a.id == j) with
    | none => rfl
    | some a =>
      have haj := List.find?_some hfind
      rw [Option.map_some', if_neg (by simp at haj ⊢; omega)]
  · have hrows : (AnnotationQueries.upsert db u now).annotations =
        db.annotations ++
          [{ id := u.id, book_id := u.book_id,
             annotation_type := u.annotation_type,
             location_start := u.location_start,
             location_end := u.location_end,
             content := u.content, style := u.style,
             updated_at := now, deleted_at := none }] := by
      unfold AnnotationQueries.upsert
      rw [if_neg hp]
    unfold AnnotationQueries.get_by_id
    rw [hrows, List.find?_append,
      List.find?_cons_of_neg _ (by simp; omega),
      List.find?_nil, Option.or_none]

/-- Lookup at the upserted key when a server row existed: its `book_id`
is kept, every client field is written, the tombstone is cleared and
`updated_at` is stamped `now`. -/
theorem get_by_id_upsert_present (db : Db) (u : AnnotationUpsert)
    (now : Nat) (r : AnnotationRow)
    (hr : AnnotationQueries.get_by_id db u.id = some r) :
    AnnotationQueries.get_by_id (AnnotationQueries.upsert db u now) u.id =
      some { id := u.id, book_id := r.book_id,
             annotation_type := u.annotation_type,
             location_start := u.location_start,
             location_end := u.location_end,
             content := u.content, style := u.style,
             updated_at := now, deleted_at := none } := by
  unfold AnnotationQueries.get_by_id at hr
  have hrid := List.find?_some hr
  have hmem := List.mem_of_find?_eq_some hr
  have hp : db.annotations.any (fun a => a.id == u.id) = true :=
    List.any_eq_true.mpr ⟨r, hmem, hrid⟩
  have hrows : (AnnotationQueries.upsert db u now).annotations =
      db.annotations.map (fun a =>
        if a.id == u.id then
          { id := u.id, book_id := a.book_id,
            annotation_type := u.annotation_type,
            location_start := u.location_start,
            location_end := u.location_end,
            content := u.content, style := u.style,
            updated_at := now, deleted_at := none }
        else a) := by
    unfold AnnotationQueries.upsert
    rw [if_pos hp]
  unfold AnnotationQueries.get_by_id
  rw [hrows, find?_map_key_ann db.annotations _
    (ann_upsert_map_keeps_id u now) u.id, hr, Option.map_some',
    if_pos hrid]

/-- Lookup at the upserted key when no server row existed: the inserted
row carries the client `book_id`, no tombstone and `updated_at = now`. -/
theorem get_by_id_upsert_absent (db : Db) (u : AnnotationUpsert)
    (now : Nat)
    (hr : AnnotationQueries.get_by_id db u.id = none) :
    AnnotationQueries.get_by_id (AnnotationQueries.upsert db u now) u.id =
      some { id := u.id, book_id := u.book_id,
             annotation_type := u.annotation_type,
             location_start := u.location_start,
             location_end := u.location_end,
             content := u.content, style := u.style,
             updated_at := now, deleted_at := none } := by
  unfold AnnotationQueries.get_by_id at hr
  have hp : ¬ db.annotations.any (fun a => a.id == u.id) = true := by
    intro hany
    obtain ⟨a, hmem, ha⟩ := List.any_eq_true.mp hany
    rw [List.find?_eq_none] at hr
    exact hr a hmem ha
  have hrows : (AnnotationQueries.upsert db u now).annotations =
      db.annotations ++
        [{ id := u.id, book_id := u.book_id,
           annotation_type := u.annotation_type,
           location_start := u.location_start,
           location_end := u.location_end,
           content := u.content, style := u.style,
           updated_at := now, deleted_at := none }] := by
    unfold AnnotationQueries.upsert
    rw [if_neg hp]
  unfold AnnotationQueries.get_by_id
  rw [hrows, List.find?_append, hr, Option.none_or,
    List.find?_cons_of_pos _ (by simp)]

/-- The row-rewriting function of `soft_delete` preserves row ids. -/
theorem soft_delete_map_keeps_id (i : Nat) (now : Nat)
    (a : AnnotationRow) :
    (if a.id == i && a.deleted_at.isNone then
        { a with deleted_at := some now, updated_at := now }
      else a).id = a.id := by
  by_cases h : (a.id == i && a.deleted_at.isNone) = true
  · simp [h]
  · simp [h]

/-- Lookup at a key other than the soft-deleted one is unchanged. -/
theorem get_by_id_soft_delete_ne (db : Db) (i : Nat) (now : Nat)
    (j : Nat) (hj : j ≠ i) :
    AnnotationQueries.get_by_id (AnnotationQueries.soft_delete db i now) j =
      AnnotationQueries.get_by_id db j := by
  unfold AnnotationQueries.get_by_id AnnotationQueries.soft_delete
  rw [show ({ db with annotations := db.annotations.map _ } : Db).annotations
      = db.annotations.map (fun a =>
          if a.id == i && a.deleted_at.isNone then
            { a with deleted_at := some now, updated_at := now }
          else a) from rfl,
    find?_map_key_ann db.annotations _ (soft_delete_map_keeps_id i now) j]
  cases hfind : db.annotations.find? (fun a => a.id == j) with
  | none => rfl
  | some a =>
    have haj := List.find?_some hfind
    rw [Option.map_some', if_neg (by simp at haj ⊢; intro h; omega)]

/-- Lookup at the soft-deleted key: a clean row gets the tombstone and
the `updated_at` stamp; an already tombstoned row is untouched. -/
theorem get_by_id_soft_delete_eq (db : Db) (i : Nat) (now : Nat) :
    AnnotationQueries.get_by_id (AnnotationQueries.soft_delete db i now) i =
      (AnnotationQueries.get_by_id db i).map (fun a =>
        if a.deleted_at.isNone then
          { a with deleted_at := some now, updated_at := now }
        else a) := by
  unfold AnnotationQueries.get_by_id AnnotationQueries.soft_delete
  rw [show ({ db with annotations := db.annotations.map _ } : Db).annotations
      = db.annotations.map (fun a =>
          if a.id == i && a.deleted_at.isNone then
            { a with deleted_at := some now, updated_at := now }
          else a) from rfl,
    find?_map_key_ann db.annotations _ (soft_delete_map_keeps_id i now) i]
  cases hfind : db.annotations.find? (fun a => a.id == i) with
  | none => rfl
  | some a =>
    have hai := List.find?_some hfind
    rw [Option.map_some', Option.map_some']
    by_cases hd : a.deleted_at.isNone = true
    · rw [if_pos (by rw [hai, hd]; rfl), if_pos hd]
    · rw [if_neg (by rw [hai]; simpa using hd), if_neg hd]

/-- Mapping a function that fixes every member is the identity. -/
theorem map_fixed_eq {α : Type} (l : List α) (f : α → α)
    (h : ∀ a ∈ l, f a = a) : l.map f = l := by
  induction l with
  | nil => rfl
  | cons a l ih =>
    rw [List.map_cons, h a (List.mem_cons_self a l),
      ih (fun b hb => h b (List.mem_cons_of_mem a hb))]

/-- Under the `annotations` key-uniqueness constraint, two rows sharing
an id are the same row. -/
theorem nodup_key_eq_ann (l : List AnnotationRow)
    (hnd : (l.map (fun a => a.id)).Nodup) (a b : AnnotationRow)
    (ha : a ∈ l) (hb : b ∈ l) (hab : a.id = b.id) : a = b := by
  induction l with
  | nil => cases ha
  | cons c l ih =>
    rw [List.map_cons, List.nodup_cons] at hnd
    rcases List.mem_cons.mp ha with ha1 | ha1 <;>
      rcases List.mem_cons.mp hb with hb1 | hb1
    · rw [ha1, hb1]
    · exfalso
      apply hnd.1
      rw [← ha1, hab]
      exact List.mem_map_of_mem (fun a => a.id) hb1
    · exfalso
      apply hnd.1
      rw [← hb1, ← hab]
      exact List.mem_map_of_mem (fun a => a.id) ha1
    · exact ih hnd.2 ha1 hb1

/-- `soft_delete` of an already tombstoned id is a complete no-op (the
`WHERE ... AND deleted_at IS NULL` guard matches no row), given the
schema's one-row-per-id constraint. -/
theorem soft_delete_noop (db : Db) (i : Nat) (now : Nat)
    (r : AnnotationRow)
    (hnd : (db.annotations.map (fun a => a.id)).Nodup)
    (hr : AnnotationQueries.get_by_id db i = some r)
    (hdel : r.deleted_at ≠ none) :
    AnnotationQueries.soft_delete db i now = db := by
  unfold AnnotationQueries.get_by_id at hr
  have hrid := List.find?_some hr
  have hrmem := List.mem_of_find?_eq_some hr
  unfold AnnotationQueries.soft_delete
  rw [map_fixed_eq db.annotations _ ?_]
  · intro a hmem
    by_cases hc : (a.id == i && a.deleted_at.isNone) = true
    · exfalso
      have hai : a.id = i := by
        have := (Bool.and_eq_true _ _).mp hc
        simpa using this.1
      have har : a = r := nodup_key_eq_ann db.annotations hnd a r hmem hrmem
        (by simp at hrid; omega)
      have := (Bool.and_eq_true _ _).mp hc
      rw [har] at this
      rcases hd : r.deleted_at with _ | d
      · exact hdel hd
      · rw [hd] at this
        simpa using this.2
    · rw [if_neg hc]

/-! ### Sync engine: merge-step branch equations -/

/-- Merge branch: no server reading state — insert unconditionally. -/
theorem mergeReadingState_absent (db : Db) (dev : Nat)
    (c : ReadingStateSync) (now : Nat)
    (h : ReadingStateQueries.get_for_book db c.book_id = none) :
    SyncMerger.mergeReadingState db dev c now =
      (none, ReadingStateQueries.upsert db
        { book_id := c.book_id, device_id := dev,
          location := c.location } now) := by
  simp [SyncMerger.mergeReadingState, h]

/-- Merge branch: server reading state strictly newer — `ServerWins`
conflict, row untouched. -/
theorem mergeReadingState_lose (db : Db) (dev : Nat)
    (c : ReadingStateSync) (now : Nat) (server : ReadingStateRow)
    (h : ReadingStateQueries.get_for_book db c.book_id = some server)
    (hlt : c.updated_at < server.updated_at) :
    SyncMerger.mergeReadingState db dev c now =
      (some { entity_type := "reading_state", entity_id := c.book_id,
              local_updated_at := c.updated_at,
              server_updated_at := server.updated_at,
              resolution := ConflictResolution.serverWins }, db) := by
  simp [SyncMerger.mergeReadingState, h, hlt]

/-- Merge branch: client strictly newer — upsert from the client edit. -/
theorem mergeReadingState_win (db : Db) (dev : Nat)
    (c : ReadingStateSync) (now : Nat) (server : ReadingStateRow)
    (h : ReadingStateQueries.get_for_book db c.book_id = some server)
    (hgt : server.updated_at < c.updated_at) :
    SyncMerger.mergeReadingState db dev c now =
      (none, ReadingStateQueries.upsert db
        { book_id := c.book_id, device_id := dev,
          location := c.location } now) := by
  have hnlt : ¬ c.updated_at < server.updated_at := by omega
  simp [SyncMerger.mergeReadingState, h, hnlt, hgt]

/-- Merge branch: equal timestamps — idempotent replay, no conflict,
no write. -/
theorem mergeReadingState_tie (db : Db) (dev : Nat)
    (c : ReadingStateSync) (now : Nat) (server : ReadingStateRow)
    (h : ReadingStateQueries.get_for_book db c.book_id = some server)
    (heq : c.updated_at = server.updated_at) :
    SyncMerger.mergeReadingState db dev c now = (none, db) := by
  have h1 : ¬ c.updated_at < server.updated_at := by omega
  have h2 : ¬ server.updated_at < c.updated_at := by omega
  simp [SyncMerger.mergeReadingState, h, h1, h2]

/-- Merge branch: no server annotation row, edit not deleted — insert. -/
theorem mergeAnnotationEdit_absent (db : Db) (c : AnnotationSync)
    (fid : Nat) (now : Nat)
    (h : AnnotationQueries.get_by_id db (c.id.getD fid) = none)
    (hnd : c.deleted = false) :
    SyncMerger.mergeAnnotationEdit db c fid now =
      (none, AnnotationQueries.upsert db
        { id := c.id.getD fid, book_id := c.book_id,
          annotation_type := c.annotation_type,
          location_start := c.location_start,
          location_end := c.location_end,
          content := c.content, style := c.style } now) := by
  simp [SyncMerger.mergeAnnotationEdit, h, hnd]

/-- Merge branch: no server annotation row, edit deleted — no-op. -/
theorem mergeAnnotationEdit_absent_deleted (db : Db) (c : AnnotationSync)
    (fid : Nat) (now : Nat)
    (h : AnnotationQueries.get_by_id db (c.id.getD fid) = none)
    (hd : c.deleted = true) :
    SyncMerger.mergeAnnotationEdit db c fid now = (none, db) := by
  simp [SyncMerger.mergeAnnotationEdit, h, hd]

/-- Merge branch: server annotation strictly newer — `ServerWins`
conflict, row untouched. -/
theorem mergeAnnotationEdit_lose (db : Db) (c : AnnotationSync)
    (fid : Nat) (now : Nat) (server : AnnotationRow)
    (h : AnnotationQueries.get_by_id db (c.id.getD fid) = some server)
    (hlt : c.updated_at < server.updated_at) :
    SyncMerger.mergeAnnotationEdit db c fid now =
      (some { entity_type := "annotation", entity_id := c.id.getD fid,
              local_updated_at := c.updated_at,
              server_updated_at := server.updated_at,
              resolution := ConflictResolution.serverWins }, db) := by
  simp [SyncMerger.mergeAnnotationEdit, h, hlt]

/-- Merge branch: client strictly newer, edit deleted — soft delete. -/
theorem mergeAnnotationEdit_win_deleted (db : Db) (c : AnnotationSync)
    (fid : Nat) (now : Nat) (server : AnnotationRow)
    (h : AnnotationQueries.get_by_id db (c.id.getD fid) = some server)
    (hgt : server.updated_at < c.updated_at) (hd : c.deleted = true) :
    SyncMerger.mergeAnnotationEdit db c fid now =
      (none, AnnotationQueries.soft_delete db (c.id.getD fid) now) := by
  have hnlt : ¬ c.updated_at < server.updated_at := by omega
  simp [SyncMerger.mergeAnnotationEdit, h, hnlt, hgt, hd]

/-- Merge branch: client strictly newer, edit not deleted — upsert. -/
theorem mergeAnnotationEdit_win_upsert (db : Db) (c : AnnotationSync)
    (fid : Nat) (now : Nat) (server : AnnotationRow)
    (h : AnnotationQueries.get_by_id db (c.id.getD fid) = some server)
    (hgt : server.updated_at < c.updated_at) (hnd : c.deleted = false) :
    SyncMerger.mergeAnnotationEdit db c fid now =
      (none, AnnotationQueries.upsert db
        { id := c.id.getD fid, book_id := c.book_id,
          annotation_type := c.annotation_type,
          location_start := c.location_start,
          location_end := c.location_end,
          content := c.content, style := c.style } now) := by
  have hnlt : ¬ c.updated_at < server.updated_at := by omega
  simp [SyncMerger.mergeAnnotationEdit, h, hnlt, hgt, hnd]

/-- Merge branch: equal timestamps — idempotent replay, no conflict,
no write. -/
theorem mergeAnnotationEdit_tie (db : Db) (c : AnnotationSync)
    (fid : Nat) (now : Nat) (server : AnnotationRow)
    (h : AnnotationQueries.get_by_id db (c.id.getD fid) = some server)
    (heq : c.updated_at = server.updated_at) :
    SyncMerger.mergeAnnotationEdit db c fid now = (none, db) := by
  have h1 : ¬ c.updated_at < server.updated_at := by omega
  have h2 : ¬ server.updated_at < c.updated_at := by omega
  simp [SyncMerger.mergeAnnotationEdit, h, h1, h2]

/-- A reading-state merge writes only the `reading_states` table. -/
theorem mergeReadingState_tables (db : Db) (dev : Nat)
    (c : ReadingStateSync) (now : Nat) :
    (SyncMerger.mergeReadingState db dev c now).2.annotations =
      db.annotations ∧
    (SyncMerger.mergeReadingState db dev c now).2.devices = db.devices := by
  cases hfind : ReadingStateQueries.get_for_book db c.book_id with
  | none =>
    rw [mergeReadingState_absent db dev c now hfind]
    exact rs_upsert_tables db _ now
  | some server =>
    by_cases h1 : c.updated_at < server.updated_at
    · rw [mergeReadingState_lose db dev c now server hfind h1]
      exact ⟨rfl, rfl⟩
    · by_cases h2 : server.updated_at < c.updated_at
      · rw [mergeReadingState_win db dev c now server hfind h2]
        exact rs_upsert_tables db _ now
      · rw [mergeReadingState_tie db dev c now server hfind (by omega)]
        exact ⟨rfl, rfl⟩

/-- The reading-state merge loop writes only `reading_states`. -/
theorem mergeReadingStates_tables (dev : Nat) (now : Nat) :
    ∀ (l : List ReadingStateSync) (db : Db),
    (SyncMerger.mergeReadingStates db dev now l).2.annotations =
      db.annotations ∧
    (SyncMerger.mergeReadingStates db dev now l).2.devices = db.devices := by
  intro l
  induction l with
  | nil => exact fun db => ⟨rfl, rfl⟩
  | cons c rest ih =>
    intro db
    have h1 := mergeReadingState_tables db dev c now
    have h2 := ih (SyncMerger.mergeReadingState db dev c now).2
    exact ⟨h2.1.trans h1.1, h2.2.trans h1.2⟩

/-- An annotation merge writes only the `annotations` table. -/
theorem mergeAnnotationEdit_tables (db : Db) (c : AnnotationSync)
    (fid : Nat) (now : Nat) :
    (SyncMerger.mergeAnnotationEdit db c fid now).2.reading_states =
      db.reading_states ∧
    (SyncMerger.mergeAnnotationEdit db c fid now).2.devices = db.devices := by
  cases hfind : AnnotationQueries.get_by_id db (c.id.getD fid) with
  | none =>
    cases hd : c.deleted with
    | false =>
      rw [mergeAnnotationEdit_absent db c fid now hfind hd]
      exact ann_upsert_tables db _ now
    | true =>
      rw [mergeAnnotationEdit_absent_deleted db c fid now hfind hd]
      exact ⟨rfl, rfl⟩
  | some server =>
    by_cases h1 : c.updated_at < server.updated_at
    · rw [mergeAnnotationEdit_lose db c fid now server hfind h1]
      exact ⟨rfl, rfl⟩
    · by_cases h2 : server.updated_at < c.updated_at
      · cases hd : c.deleted with
        | false =>
          rw [mergeAnnotationEdit_win_upsert db c fid now server hfind h2 hd]
          exact ann_upsert_tables db _ now
        | true =>
          rw [mergeAnnotationEdit_win_deleted db c fid now server hfind h2 hd]
          exact soft_delete_tables db _ now
      · rw [mergeAnnotationEdit_tie db c fid now server hfind (by omega)]
        exact ⟨rfl, rfl⟩

/-- The annotation merge loop writes only `annotations`. -/
theorem mergeAnnotationEdits_tables (now : Nat) (fresh : Nat → Nat) :
    ∀ (l : List AnnotationSync) (db : Db) (k : Nat),
    (SyncMerger.mergeAnnotationEdits db now fresh k l).2.reading_states =
      db.reading_states ∧
    (SyncMerger.mergeAnnotationEdits db now fresh k l).2.devices =
      db.devices := by
  intro l
  induction l with
  | nil => exact fun db k => ⟨rfl, rfl⟩
  | cons c rest ih =>
    intro db k
    have h1 := mergeAnnotationEdit_tables db c (fresh k) now
    have h2 := ih (SyncMerger.mergeAnnotationEdit db c (fresh k) now).2 (k + 1)
    exact ⟨h2.1.trans h1.1, h2.2.trans h1.2⟩

/-- Unfolding equation: the database returned by `process_sync`. -/
theorem process_sync_db_eq (db : Db) (request : SyncRequest)
    (fresh : Nat → Nat) (now : Nat) :
    (SyncMerger.process_sync db request fresh now).2 =
      DeviceQueries.update_last_sync
        (SyncMerger.mergeAnnotationEdits
          (SyncMerger.mergeReadingStates db request.device_id now
            request.reading_states).2
          now fresh 0 request.annotations).2
        request.device_id now :=
  rfl

/-- Unfolding equation: the response returned by `process_sync`. -/
theorem process_sync_response_eq (db : Db) (request : SyncRequest)
    (fresh : Nat → Nat) (now : Nat) :
    (SyncMerger.process_sync db request fresh now).1 =
      { server_time := now,
        reading_states :=
          (ReadingStateQueries.get_updated_since
            (SyncMerger.mergeAnnotationEdits
              (SyncMerger.mergeReadingStates db request.device_id now
                request.reading_states).2
              now fresh 0 request.annotations).2
            (request.last_sync_at.getD 0)).map
            SyncMerger.toReadingStateSync,
        annotations :=
          (AnnotationQueries.get_updated_since
            (SyncMerger.mergeAnnotationEdits
              (SyncMerger.mergeReadingStates db request.device_id now
                request.reading_states).2
              now fresh 0 request.annotations).2
            (request.last_sync_at.getD 0)).map
            SyncMerger.toAnnotationSync,
        conflicts :=
          (SyncMerger.mergeReadingStates db request.device_id now
            request.reading_states).1 ++
          (SyncMerger.mergeAnnotationEdits
            (SyncMerger.mergeReadingStates db request.device_id now
              request.reading_states).2
            now fresh 0 request.annotations).1 } :=
  rfl

/-! ### Sync engine: delta lemmas -/

/-- Every stored reading state newer than the cursor appears in the
outbound reading-state delta. -/
theorem mem_delta_rs (db : Db) (cursor : Nat) (r : ReadingStateRow)
    (hmem : r ∈ db.reading_states) (hts : cursor < r.updated_at) :
    SyncMerger.toReadingStateSync r ∈
      (ReadingStateQueries.get_updated_since db cursor).map
        SyncMerger.toReadingStateSync := by
  exact List.mem_map_of_mem _
    (List.mem_filter.mpr ⟨hmem, by simpa using hts⟩)

/-- Everything in the reading-state delta is newer than the cursor. -/
theorem delta_rs_ts (db : Db) (cursor : Nat) (s : ReadingStateSync)
    (hs : s ∈ (ReadingStateQueries.get_updated_since db cursor).map
      SyncMerger.toReadingStateSync) :
    cursor < s.updated_at := by
  obtain ⟨r, hr, hrs⟩ := List.mem_map.mp hs
  have := (List.mem_filter.mp hr).2
  rw [← hrs]
  simpa using this

/-- Every stored annotation newer than the cursor — tombstoned or not —
appears in the outbound annotation delta. -/
theorem mem_delta_ann (db : Db) (cursor : Nat) (a : AnnotationRow)
    (hmem : a ∈ db.annotations) (hts : cursor < a.updated_at) :
    SyncMerger.toAnnotationSync a ∈
      (AnnotationQueries.get_updated_since db cursor).map
        SyncMerger.toAnnotationSync := by
  exact List.mem_map_of_mem _
    (List.mem_filter.mpr ⟨hmem, by simpa using hts⟩)

/-- Everything in the annotation delta is newer than the cursor. -/
theorem delta_ann_ts (db : Db) (cursor : Nat) (s : AnnotationSync)
    (hs : s ∈ (AnnotationQueries.get_updated_since db cursor).map
      SyncMerger.toAnnotationSync) :
    cursor < s.updated_at := by
  obtain ⟨a, ha, has⟩ := List.mem_map.mp hs
  have := (List.mem_filter.mp ha).2
  rw [← has]
  simpa using this

/-! ### Claim C2 -/

/-- C2: an edit (reading state or annotation) whose server row exists
and is strictly newer is rejected: the merge leaves the database
untouched and returns a `ServerWins` conflict naming the entity (type,
id, losing client timestamp, winning server timestamp); and for a
request carrying such edits, `process_sync` reports those conflicts in
the response while the reading-state and annotation tables end the call
unchanged. -/
theorem sync_server_wins_conflict
    (db : Db) (device_id : Nat) (c : ReadingStateSync) (a : AnnotationSync)
    (i fid now lsa : Nat) (rserver : ReadingStateRow)
    (aserver : AnnotationRow)
    (hr : ReadingStateQueries.get_for_book db c.book_id = some rserver)
    (hrt : c.updated_at < rserver.updated_at)
    (ha : a.id = some i)
    (hai : AnnotationQueries.get_by_id db i = some aserver)
    (hat : a.updated_at < aserver.updated_at) :
    SyncMerger.mergeReadingState db device_id c now =
      (some { entity_type := "reading_state", entity_id := c.book_id,
              local_updated_at := c.updated_at,
              server_updated_at := rserver.updated_at,
              resolution := ConflictResolution.serverWins }, db) ∧
    SyncMerger.mergeAnnotationEdit db a fid now =
      (some { entity_type := "annotation", entity_id := i,
              local_updated_at := a.updated_at,
              server_updated_at := aserver.updated_at,
              resolution := ConflictResolution.serverWins }, db) ∧
    (SyncMerger.process_sync db
      { device_id := device_id, last_sync_at := some lsa,
        reading_states := [c], annotations := [a] }
      (fun _ => fid) now).1.conflicts =
      [{ entity_type := "reading_state", entity_id := c.book_id,
         local_updated_at := c.updated_at,
         server_updated_at := rserver.updated_at,
         resolution := ConflictResolution.serverWins },
       { entity_type := "annotation", entity_id := i,
         local_updated_at := a.updated_at,
         server_updated_at := aserver.updated_at,
         resolution := ConflictResolution.serverWins }] ∧
    (SyncMerger.process_sync db
      { device_id := device_id, last_sync_at := some lsa,
        reading_states := [c], annotations := [a] }
      (fun _ => fid) now).2.reading_states = db.reading_states ∧
    (SyncMerger.process_sync db
      { device_id := device_id, last_sync_at := some lsa,
        reading_states := [c], annotations := [a] }
      (fun _ => fid) now).2.annotations = db.annotations := by
  have ha2 : a.id.getD fid = i := by rw [ha]; rfl
  have part1 := mergeReadingState_lose db device_id c now rserver hr hrt
  have part2 := mergeAnnotationEdit_lose db a fid now aserver
    (by rw [ha2]; exact hai) hat
  rw [ha2] at part2
  have hloop1 : SyncMerger.mergeReadingStates db device_id now [c] =
      ([{ entity_type := "reading_state", entity_id := c.book_id,
          local_updated_at := c.updated_at,
          server_updated_at := rserver.updated_at,
          resolution := ConflictResolution.serverWins }], db) := by
    simp [SyncMerger.mergeReadingStates, part1]
  have hloop2 : SyncMerger.mergeAnnotationEdits db now (fun _ => fid) 0 [a] =
      ([{ entity_type := "annotation", entity_id := i,
          local_updated_at := a.updated_at,
          server_updated_at := aserver.updated_at,
          resolution := ConflictResolution.serverWins }], db) := by
    simp [SyncMerger.mergeAnnotationEdits, part2]
  refine ⟨part1, part2, ?_, ?_, ?_⟩
  · rw [process_sync_response_eq]
    simp only [hloop1, hloop2]
    rfl
  · rw [process_sync_db_eq]
    simp only [hloop1, hloop2]
    rfl
  · rw [process_sync_db_eq]
    simp only [hloop1, hloop2]
    rfl

/-- Witness for C2 at a concrete store and losing edits. -/
theorem sync_server_wins_conflict_witness :
    (ReadingStateQueries.get_for_book
      { reading_states := [{ book_id := 1, device_id := 2, location := 3,
                             updated_at := 10 }],
        annotations := [{ id := 5, book_id := 1,
                          annotation_type := AnnotationType.note,
                          location_start := 4, location_end := none,
                          content := some 6, style := none,
                          updated_at := 10, deleted_at := none }],
        devices := [{ id := 9, last_sync_at := none }] } 1 =
      some { book_id := 1, device_id := 2, location := 3,
             updated_at := 10 } ∧
     (4 : Nat) < 10 ∧
     (some 5 : Option Nat) = some 5 ∧
     AnnotationQueries.get_by_id
      { reading_states := [{ book_id := 1, device_id := 2, location := 3,
                             updated_at := 10 }],
        annotations := [{ id := 5, book_id := 1,
                          annotation_type := AnnotationType.note,
                          location_start := 4, location_end := none,
                          content := some 6, style := none,
                          updated_at := 10, deleted_at := none }],
        devices := [{ id := 9, last_sync_at := none }] } 5 =
      some { id := 5, book_id := 1,
             annotation_type := AnnotationType.note,
             location_start := 4, location_end := none,
             content := some 6, style := none,
             updated_at := 10, deleted_at := none } ∧
     (4 : Nat) < 10) ∧
    (SyncMerger.process_sync
      { reading_states := [{ book_id := 1, device_id := 2, location := 3,
                             updated_at := 10 }],
        annotations := [{ id := 5, book_id := 1,
                          annotation_type := AnnotationType.note,
                          location_start := 4, location_end := none,
                          content := some 6, style := none,
                          updated_at := 10, deleted_at := none }],
        devices := [{ id := 9, last_sync_at := none }] }
      { device_id := 9, last_sync_at := some 0,
        reading_states := [{ book_id := 1, location := 7, updated_at := 4 }],
        annotations := [{ id := some 5, book_id := 1,
                          annotation_type := AnnotationType.note,
                          location_start := 8, location_end := none,
                          content := some 6, style := none,
                          updated_at := 4, deleted := false }] }
      (fun _ => 77) 20).1.conflicts =
      [{ entity_type := "reading_state", entity_id := 1,
         local_updated_at := 4, server_updated_at := 10,
         resolution := ConflictResolution.serverWins },
       { entity_type := "annotation", entity_id := 5,
         local_updated_at := 4, server_updated_at := 10,
         resolution := ConflictResolution.serverWins }] :=
  ⟨⟨rfl, by decide, rfl, rfl, by decide⟩,
    (sync_server_wins_conflict
      { reading_states := [{ book_id := 1, device_id := 2, location := 3,
                             updated_at := 10 }],
        annotations := [{ id := 5, book_id := 1,
                          annotation_type := AnnotationType.note,
                          location_start := 4, location_end := none,
                          content := some 6, style := none,
                          updated_at := 10, deleted_at := none }],
        devices := [{ id := 9, last_sync_at := none }] }
      9 { book_id := 1, location := 7, updated_at := 4 }
      { id := some 5, book_id := 1,
        annotation_type := AnnotationType.note,
        location_start := 8, location_end := none,
        content := some 6, style := none,
        updated_at := 4, deleted := false }
      5 77 20 0
      { book_id := 1, device_id := 2, location := 3, updated_at := 10 }
      { id := 5, book_id := 1, annotation_type := AnnotationType.note,
        location_start := 4, location_end := none,
        content := some 6, style := none,
        updated_at := 10, deleted_at := none }
      rfl (by decide) rfl rfl (by decide)).2.2.1⟩

/-! ### Claim C10 -/

/-- C10: a non-deleted annotation edit that is strictly newer than an
existing tombstoned server row resurrects it: the merge reports no
conflict and the row afterwards carries the client fields with
`deleted_at` cleared (the upsert's `deleted_at = NULL`), stamped with
the write time. -/
theorem sync_resurrects_tombstone
    (db : Db) (client : AnnotationSync) (i fid now d : Nat)
    (r : AnnotationRow)
    (hid : client.id = some i)
    (hr : AnnotationQueries.get_by_id db i = some r)
    (hdel : r.deleted_at = some d)
    (ht : r.updated_at < client.updated_at)
    (hnd : client.deleted = false) :
    (SyncMerger.mergeAnnotationEdit db client fid now).1 = none ∧
    AnnotationQueries.get_by_id
      (SyncMerger.mergeAnnotationEdit db client fid now).2 i =
      some { id := i, book_id := r.book_id,
             annotation_type := client.annotation_type,
             location_start := client.location_start,
             location_end := client.location_end,
             content := client.content, style := client.style,
             updated_at := now, deleted_at := none } := by
  have hid2 : client.id.getD fid = i := by rw [hid]; rfl
  have hmerge := mergeAnnotationEdit_win_upsert db client fid now r
    (by rw [hid2]; exact hr) ht hnd
  rw [hmerge]
  refine ⟨rfl, ?_⟩
  have h2 := get_by_id_upsert_present db
    { id := client.id.getD fid, book_id := client.book_id,
      annotation_type := client.annotation_type,
      location_start := client.location_start,
      location_end := client.location_end,
      content := client.content, style := client.style } now r
    (by simpa [hid2] using hr)
  simpa [hid2] using h2

/-- Witness for C10: a tombstoned row (id 5, `deleted_at = some 8`)
resurrected by a newer non-deleted edit. -/
theorem sync_resurrects_tombstone_witness :
    ((some 5 : Option Nat) = some 5 ∧
     AnnotationQueries.get_by_id
      { reading_states := [],
        annotations := [{ id := 5, book_id := 1,
                          annotation_type := AnnotationType.highlight,
                          location_start := 2, location_end := some 3,
                          content := none, style := some 4,
                          updated_at := 6, deleted_at := some 8 }],
        devices := [] } 5 =
      some { id := 5, book_id := 1,
             annotation_type := AnnotationType.highlight,
             location_start := 2, location_end := some 3,
             content := none, style := some 4,
             updated_at := 6, deleted_at := some 8 } ∧
     (some 8 : Option Nat) = some 8 ∧ (6 : Nat) < 9 ∧ false = false) ∧
    AnnotationQueries.get_by_id
      (SyncMerger.mergeAnnotationEdit
        { reading_states := [],
          annotations := [{ id := 5, book_id := 1,
                            annotation_type := AnnotationType.highlight,
                            location_start := 2, location_end := some 3,
                            content := none, style := some 4,
                            updated_at := 6, deleted_at := some 8 }],
          devices := [] }
        { id := some 5, book_id := 1,
          annotation_type := AnnotationType.note,
          location_start := 11, location_end := none,
          content := some 12, style := none,
          updated_at := 9, deleted := false }
        77 20).2 5 =
      some { id := 5, book_id := 1,
             annotation_type := AnnotationType.note,
             location_start := 11, location_end := none,
             content := some 12, style := none,
             updated_at := 20, deleted_at := none } :=
  ⟨⟨rfl, rfl, rfl, by decide, rfl⟩,
    (sync_resurrects_tombstone
      { reading_states := [],
        annotations := [{ id := 5, book_id := 1,
                          annotation_type := AnnotationType.highlight,
                          location_start := 2, location_end := some 3,
                          content := none, style := some 4,
                          updated_at := 6, deleted_at := some 8 }],
        devices := [] }
      { id := some 5, book_id := 1,
        annotation_type := AnnotationType.note,
        location_start := 11, location_end := none,
        content := some 12, style := none,
        updated_at := 9, deleted := false }
      5 77 20 8
      { id := 5, book_id := 1,
        annotation_type := AnnotationType.highlight,
        location_start := 2, location_end := some 3,
        content := none, style := some 4,
        updated_at := 6, deleted_at := some 8 }
      rfl rfl rfl (by decide) rfl).2⟩

/-! ### Claim C5 -/

/-- C5: with cursor `some cursor`, the outbound delta computed by
`process_sync` contains exactly the entities strictly newer than the
cursor: every persisted reading state or annotation (tombstones
included, no device filter) with `updated_at > cursor` appears in the
response, and everything in the response has `updated_at > cursor`
(entities at or before the cursor are excluded). -/
theorem sync_delta_cursor_exclusive
    (db : Db) (request : SyncRequest) (fresh : Nat → Nat) (now : Nat)
    (cursor : Nat) (hc : request.last_sync_at = some cursor) :
    (∀ r ∈ (SyncMerger.process_sync db request fresh now).2.reading_states,
      cursor < r.updated_at →
      SyncMerger.toReadingStateSync r ∈
        (SyncMerger.process_sync db request fresh now).1.reading_states) ∧
    (∀ s ∈ (SyncMerger.process_sync db request fresh now).1.reading_states,
      cursor < s.updated_at) ∧
    (∀ a ∈ (SyncMerger.process_sync db request fresh now).2.annotations,
      cursor < a.updated_at →
      SyncMerger.toAnnotationSync a ∈
        (SyncMerger.process_sync db request fresh now).1.annotations) ∧
    (∀ s ∈ (SyncMerger.process_sync db request fresh now).1.annotations,
      cursor < s.updated_at) := by
  have hcur : request.last_sync_at.getD 0 = cursor := by rw [hc]; rfl
  rw [process_sync_db_eq, process_sync_response_eq,
    (update_last_sync_tables _ _ _).1, (update_last_sync_tables _ _ _).2,
    hcur]
  exact ⟨fun r hm ht => mem_delta_rs _ cursor r hm ht,
         fun s hs => delta_rs_ts _ cursor s hs,
         fun a hm ht => mem_delta_ann _ cursor a hm ht,
         fun s hs => delta_ann_ts _ cursor s hs⟩

/-- Witness for C5 at a concrete store (one fresh row, one stale row,
one fresh tombstone) and a pull-only request with cursor 10. -/
theorem sync_delta_cursor_exclusive_witness :
    (({ device_id := 9, last_sync_at := some 10, reading_states := [],
        annotations := [] } : SyncRequest).last_sync_at = some 10) ∧
    ((∀ r ∈ (SyncMerger.process_sync
        { reading_states :=
            [{ book_id := 1, device_id := 2, location := 3,
               updated_at := 15 },
             { book_id := 2, device_id := 2, location := 4,
               updated_at := 10 }],
          annotations := [{ id := 5, book_id := 1,
                            annotation_type := AnnotationType.note,
                            location_start := 6, location_end := none,
                            content := none, style := none,
                            updated_at := 12, deleted_at := some 12 }],
          devices := [{ id := 9, last_sync_at := none }] }
        { device_id := 9, last_sync_at := some 10, reading_states := [],
          annotations := [] } (fun k => k) 20).2.reading_states,
        10 < r.updated_at →
        SyncMerger.toReadingStateSync r ∈
          (SyncMerger.process_sync
        { reading_states :=
            [{ book_id := 1, device_id := 2, location := 3,
               updated_at := 15 },
             { book_id := 2, device_id := 2, location := 4,
               updated_at := 10 }],
          annotations := [{ id := 5, book_id := 1,
                            annotation_type := AnnotationType.note,
                            location_start := 6, location_end := none,
                            content := none, style := none,
                            updated_at := 12, deleted_at := some 12 }],
          devices := [{ id := 9, last_sync_at := none }] }
        { device_id := 9, last_sync_at := some 10, reading_states := [],
          annotations := [] } (fun k => k) 20).1.reading_states) ∧
     (∀ s ∈ (SyncMerger.process_sync
        { reading_states :=
            [{ book_id := 1, device_id := 2, location := 3,
               updated_at := 15 },
             { book_id := 2, device_id := 2, location := 4,
               updated_at := 10 }],
          annotations := [{ id := 5, book_id := 1,
                            annotation_type := AnnotationType.note,
                            location_start := 6, location_end := none,
                            content := none, style := none,
                            updated_at := 12, deleted_at := some 12 }],
          devices := [{ id := 9, last_sync_at := none }] }
        { device_id := 9, last_sync_at := some 10, reading_states := [],
          annotations := [] } (fun k => k) 20).1.reading_states,
        10 < s.updated_at) ∧
     (∀ a ∈ (SyncMerger.process_sync
        { reading_states :=
            [{ book_id := 1, device_id := 2, location := 3,
               updated_at := 15 },
             { book_id := 2, device_id := 2, location := 4,
               updated_at := 10 }],
          annotations := [{ id := 5, book_id := 1,
                            annotation_type := AnnotationType.note,
                            location_start := 6, location_end := none,
                            content := none, style := none,
                            updated_at := 12, deleted_at := some 12 }],
          devices := [{ id := 9, last_sync_at := none }] }
        { device_id := 9, last_sync_at := some 10, reading_states := [],
          annotations := [] } (fun k => k) 20).2.annotations,
        10 < a.updated_at →
        SyncMerger.toAnnotationSync a ∈
          (SyncMerger.process_sync
        { reading_states :=
            [{ book_id := 1, device_id := 2, location := 3,
               updated_at := 15 },
             { book_id := 2, device_id := 2, location := 4,
               updated_at := 10 }],
          annotations := [{ id := 5, book_id := 1,
                            annotation_type := AnnotationType.note,
                            location_start := 6, location_end := none,
                            content := none, style := none,
                            updated_at := 12, deleted_at := some 12 }],
          devices := [{ id := 9, last_sync_at := none }] }
        { device_id := 9, last_sync_at := some 10, reading_states := [],
          annotations := [] } (fun k => k) 20).1.annotations) ∧
     (∀ s ∈ (SyncMerger.process_sync
        { reading_states :=
            [{ book_id := 1, device_id := 2, location := 3,
               updated_at := 15 },
             { book_id := 2, device_id := 2, location := 4,
               updated_at := 10 }],
          annotations := [{ id := 5, book_id := 1,
                            annotation_type := AnnotationType.note,
                            location_start := 6, location_end := none,
                            content := none, style := none,
                            updated_at := 12, deleted_at := some 12 }],
          devices := [{ id := 9, last_sync_at := none }] }
        { device_id := 9, last_sync_at := some 10, reading_states := [],
          annotations := [] } (fun k => k) 20).1.annotations,
        10 < s.updated_at)) :=
  ⟨rfl,
    sync_delta_cursor_exclusive
      { reading_states :=
          [{ book_id := 1, device_id := 2, location := 3,
             updated_at := 15 },
           { book_id := 2, device_id := 2, location := 4,
             updated_at := 10 }],
        annotations := [{ id := 5, book_id := 1,
                          annotation_type := AnnotationType.note,
                          location_start := 6, location_end := none,
                          content := none, style := none,
                          updated_at := 12, deleted_at := some 12 }],
        devices := [{ id := 9, last_sync_at := none }] }
      { device_id := 9, last_sync_at := some 10, reading_states := [],
        annotations := [] } (fun k => k) 20 10 rfl⟩

/-! ### Claim C3 -/

/-- Any database a single fallible reading-state merge leaves behind —
on success or on error — has its `devices` table untouched. -/
theorem mergeReadingStateF_devices (faults : DbFaults) (db : Db)
    (dev : Nat) (c : ReadingStateSync) (now : Nat) (db1 : Db)
    (hres : SyncMerger.mergeReadingStateF faults db dev c now =
        Except.error db1 ∨
      ∃ cf, SyncMerger.mergeReadingStateF faults db dev c now =
        Except.ok (cf, db1)) :
    db1.devices = db.devices := by
  have hdev := (rs_upsert_tables db
    { book_id := c.book_id, device_id := dev, location := c.location }
    now).2
  rcases hres with h | ⟨cf, h⟩ <;>
    unfold SyncMerger.mergeReadingStateF at h <;>
    split at h <;> split_ifs at h <;> simp_all

/-- Any database a single fallible annotation merge leaves behind has
its `devices` table untouched. -/
theorem mergeAnnotationEditF_devices (faults : DbFaults) (db : Db)
    (c : AnnotationSync) (fid : Nat) (now : Nat) (db1 : Db)
    (hres : SyncMerger.mergeAnnotationEditF faults db c fid now =
        Except.error db1 ∨
      ∃ cf, SyncMerger.mergeAnnotationEditF faults db c fid now =
        Except.ok (cf, db1)) :
    db1.devices = db.devices := by
  have hdev1 := (ann_upsert_tables db
    { id := c.id.getD fid, book_id := c.book_id,
      annotation_type := c.annotation_type,
      location_start := c.location_start,
      location_end := c.location_end,
      content := c.content, style := c.style } now).2
  have hdev2 := (soft_delete_tables db (c.id.getD fid) now).2
  rcases hres with h | ⟨cf, h⟩ <;>
    unfold SyncMerger.mergeAnnotationEditF at h <;>
    cases hfind : AnnotationQueries.get_by_id db (c.id.getD fid) <;>
    simp only [hfind] at h <;>
    (repeat' split at h) <;>
    simp_all

/-- The fallible reading-state loop never touches `devices`, whether it
completes or aborts mid-batch. -/
theorem mergeReadingStatesF_devices (faults : DbFaults) (dev : Nat)
    (now : Nat) :
    ∀ (l : List ReadingStateSync) (db db1 : Db),
    (SyncMerger.mergeReadingStatesF faults db dev now l =
        Except.error db1 ∨
      ∃ cfs, SyncMerger.mergeReadingStatesF faults db dev now l =
        Except.ok (cfs, db1)) →
    db1.devices = db.devices := by
  intro l
  induction l with
  | nil =>
    intro db db1 hres
    rcases hres with h | ⟨cfs, h⟩
    · cases h
    · unfold SyncMerger.mergeReadingStatesF at h
      simp at h
      rw [← h.2]
  | cons c rest ih =>
    intro db db1 hres
    rcases hstep : SyncMerger.mergeReadingStateF faults db dev c now with
      db2 | p
    · have hloop : SyncMerger.mergeReadingStatesF faults db dev now
          (c :: rest) = Except.error db2 := by
        unfold SyncMerger.mergeReadingStatesF
        simp only [hstep]
      have h1 := mergeReadingStateF_devices faults db dev c now db2
        (Or.inl hstep)
      rcases hres with h | ⟨cfs, h⟩ <;> rw [hloop] at h <;> simp at h
      rw [← h]
      exact h1
    · obtain ⟨cf, dbm⟩ := p
      have h1 := mergeReadingStateF_devices faults db dev c now dbm
        (Or.inr ⟨cf, hstep⟩)
      rcases hrest : SyncMerger.mergeReadingStatesF faults dbm dev now rest
        with db3 | q
      · have hloop : SyncMerger.mergeReadingStatesF faults db dev now
            (c :: rest) = Except.error db3 := by
          unfold SyncMerger.mergeReadingStatesF
          simp only [hstep, hrest]
        have h2 := ih dbm db3 (Or.inl hrest)
        rcases hres with h | ⟨cfs, h⟩ <;> rw [hloop] at h <;> simp at h
        rw [← h, h2, h1]
      · obtain ⟨cfs2, db4⟩ := q
        have hloop : SyncMerger.mergeReadingStatesF faults db dev now
            (c :: rest) = Except.ok (cf.toList ++ cfs2, db4) := by
          unfold SyncMerger.mergeReadingStatesF
          simp only [hstep, hrest]
        have h2 := ih dbm db4 (Or.inr ⟨cfs2, hrest⟩)
        rcases hres with h | ⟨cfs, h⟩ <;> rw [hloop] at h <;> simp at h
        rw [← h.2, h2, h1]

/-- The fallible annotation loop never touches `devices`, whether it
completes or aborts mid-batch. -/
theorem mergeAnnotationEditsF_devices (faults : DbFaults) (now : Nat)
    (fresh : Nat → Nat) :
    ∀ (l : List AnnotationSync) (k : Nat) (db db1 : Db),
    (SyncMerger.mergeAnnotationEditsF faults db now fresh k l =
        Except.error db1 ∨
      ∃ cfs, SyncMerger.mergeAnnotationEditsF faults db now fresh k l =
        Except.ok (cfs, db1)) →
    db1.devices = db.devices := by
  intro l
  induction l with
  | nil =>
    intro k db db1 hres
    rcases hres with h | ⟨cfs, h⟩
    · cases h
    · unfold SyncMerger.mergeAnnotationEditsF at h
      simp at h
      rw [← h.2]
  | cons c rest ih =>
    intro k db db1 hres
    rcases hstep : SyncMerger.mergeAnnotationEditF faults db c (fresh k) now
      with db2 | p
    · have hloop : SyncMerger.mergeAnnotationEditsF faults db now fresh k
          (c :: rest) = Except.error db2 := by
        unfold SyncMerger.mergeAnnotationEditsF
        simp only [hstep]
      have h1 := mergeAnnotationEditF_devices faults db c (fresh k) now db2
        (Or.inl hstep)
      rcases hres with h | ⟨cfs, h⟩ <;> rw [hloop] at h <;> simp at h
      rw [← h]
      exact h1
    · obtain ⟨cf, dbm⟩ := p
      have h1 := mergeAnnotationEditF_devices faults db c (fresh k) now dbm
        (Or.inr ⟨cf, hstep⟩)
      rcases hrest : SyncMerger.mergeAnnotationEditsF faults dbm now fresh
        (k + 1) rest with db3 | q
      · have hloop : SyncMerger.mergeAnnotationEditsF faults db now fresh k
            (c :: rest) = Except.error db3 := by
          unfold SyncMerger.mergeAnnotationEditsF
          simp only [hstep, hrest]
        have h2 := ih (k + 1) dbm db3 (Or.inl hrest)
        rcases hres with h | ⟨cfs, h⟩ <;> rw [hloop] at h <;> simp at h
        rw [← h, h2, h1]
      · obtain ⟨cfs2, db4⟩ := q
        have hloop : SyncMerger.mergeAnnotationEditsF faults db now fresh k
            (c :: rest) = Except.ok (cf.toList ++ cfs2, db4) := by
          unfold SyncMerger.mergeAnnotationEditsF
          simp only [hstep, hrest]
        have h2 := ih (k + 1) dbm db4 (Or.inr ⟨cfs2, hrest⟩)
        rcases hres with h | ⟨cfs, h⟩ <;> rw [hloop] at h <;> simp at h
        rw [← h.2, h2, h1]

/-- C3 (amended): when a per-edit persistence statement fails
mid-batch, `process_sync` aborts with an error before
`update_last_sync` runs: the remaining edits are never attempted (the
`?` operator stops the loops) and the device's `last_sync_at` cursor is
left unmoved — but edits already persisted before the failing statement
remain applied, because each statement commits on its own and no
transaction wraps the batch. -/
theorem sync_midbatch_failure_aborts (faults : DbFaults) (db : Db)
    (request : SyncRequest) (fresh : Nat → Nat) (now : Nat) (db1 : Db)
    (h : SyncMerger.process_syncF faults db request fresh now =
      Except.error db1) :
    db1.devices = db.devices := by
  unfold SyncMerger.process_syncF at h
  rcases hrs : SyncMerger.mergeReadingStatesF faults db request.device_id
      now request.reading_states with db2 | p
  · simp only [hrs] at h
    injection h with h2
    rw [← h2]
    exact mergeReadingStatesF_devices faults request.device_id now
      request.reading_states db db2 (Or.inl hrs)
  · obtain ⟨cfs1, dbm⟩ := p
    simp only [hrs] at h
    have h1 := mergeReadingStatesF_devices faults request.device_id now
      request.reading_states db dbm (Or.inr ⟨cfs1, hrs⟩)
    rcases hann : SyncMerger.mergeAnnotationEditsF faults dbm now fresh 0
        request.annotations with db3 | q
    · simp only [hann] at h
      injection h with h2
      rw [← h2]
      rw [mergeAnnotationEditsF_devices faults now fresh request.annotations
        0 dbm db3 (Or.inl hann), h1]
    · obtain ⟨cfs2, db4⟩ := q
      simp only [hann] at h
      simp at h

/-- Witness for C3's amended theorem: a two-edit batch whose second
write faults; the call errors and the cursor row is unchanged. -/
theorem sync_midbatch_failure_aborts_witness :
    SyncMerger.process_syncF
      { rs_upsert := fun b => b == 2, ann_upsert := fun _ => false,
        ann_soft_delete := fun _ => false }
      { reading_states := [{ book_id := 1, device_id := 2, location := 3,
                             updated_at := 5 }],
        annotations := [], devices := [{ id := 9, last_sync_at := none }] }
      { device_id := 9, last_sync_at := some 0,
        reading_states :=
          [{ book_id := 1, location := 7, updated_at := 10 },
           { book_id := 2, location := 8, updated_at := 11 }],
        annotations := [] }
      (fun k => k) 20 =
      Except.error
        { reading_states := [{ book_id := 1, device_id := 9, location := 7,
                               updated_at := 20 }],
          annotations := [],
          devices := [{ id := 9, last_sync_at := none }] } ∧
    ({ reading_states := [{ book_id := 1, device_id := 9, location := 7,
                            updated_at := 20 }],
       annotations := [],
       devices := [{ id := 9, last_sync_at := none }] } : Db).devices =
      ({ reading_states := [{ book_id := 1, device_id := 2, location := 3,
                              updated_at := 5 }],
         annotations := [],
         devices := [{ id := 9, last_sync_at := none }] } : Db).devices :=
  ⟨rfl,
    sync_midbatch_failure_aborts
      { rs_upsert := fun b => b == 2, ann_upsert := fun _ => false,
        ann_soft_delete := fun _ => false }
      { reading_states := [{ book_id := 1, device_id := 2, location := 3,
                             updated_at := 5 }],
        annotations := [], devices := [{ id := 9, last_sync_at := none }] }
      { device_id := 9, last_sync_at := some 0,
        reading_states :=
          [{ book_id := 1, location := 7, updated_at := 10 },
           { book_id := 2, location := 8, updated_at := 11 }],
        annotations := [] }
      (fun k => k) 20
      { reading_states := [{ book_id := 1, device_id := 9, location := 7,
                             updated_at := 20 }],
        annotations := [],
        devices := [{ id := 9, last_sync_at := none }] }
      rfl⟩

/-- C3 counterexample: in that same faulted batch the first edit IS
applied and survives the abort — the batch is partially applied,
refuting "no edit of the batch is applied at all". -/
theorem sync_midbatch_failure_cex :
    SyncMerger.process_syncF
      { rs_upsert := fun b => b == 2, ann_upsert := fun _ => false,
        ann_soft_delete := fun _ => false }
      { reading_states := [{ book_id := 1, device_id := 2, location := 3,
                             updated_at := 5 }],
        annotations := [], devices := [{ id := 9, last_sync_at := none }] }
      { device_id := 9, last_sync_at := some 0,
        reading_states :=
          [{ book_id := 1, location := 7, updated_at := 10 },
           { book_id := 2, location := 8, updated_at := 11 }],
        annotations := [] }
      (fun k => k) 20 =
      Except.error
        { reading_states := [{ book_id := 1, device_id := 9, location := 7,
                               updated_at := 20 }],
          annotations := [],
          devices := [{ id := 9, last_sync_at := none }] } ∧
    ({ reading_states := [{ book_id := 1, device_id := 9, location := 7,
                            updated_at := 20 }],
       annotations := [],
       devices := [{ id := 9, last_sync_at := none }] } : Db).reading_states
      ≠
      ({ reading_states := [{ book_id := 1, device_id := 2, location := 3,
                              updated_at := 5 }],
         annotations := [],
         devices := [{ id := 9, last_sync_at := none }] } : Db).reading_states :=
  ⟨rfl, by decide⟩

/-! ### Claim C4 -/

/-- `get_by_id` reads only the `annotations` table. -/
theorem get_by_id_congr (db db2 : Db) (i : Nat)
    (h : db2.annotations = db.annotations) :
    AnnotationQueries.get_by_id db2 i = AnnotationQueries.get_by_id db i := by
  unfold AnnotationQueries.get_by_id
  rw [h]

/-- C4: device A soft-deletes annotation `i` through a sync at server
time `nowA` (the edit is strictly newer than the clean server row);
a later pull-only sync for device B whose cursor `cb` predates the
deletion returns that annotation in B's delta with `deleted = true`. -/
theorem sync_tombstone_propagates
    (db : Db) (i : Nat) (r : AnnotationRow) (editA : AnnotationSync)
    (reqA reqB : SyncRequest) (freshA freshB : Nat → Nat)
    (nowA nowB cb : Nat)
    (hr : AnnotationQueries.get_by_id db i = some r)
    (hclean : r.deleted_at = none)
    (hid : editA.id = some i)
    (hdel : editA.deleted = true)
    (ht : r.updated_at < editA.updated_at)
    (hannA : reqA.annotations = [editA])
    (hrsB : reqB.reading_states = [])
    (hannB : reqB.annotations = [])
    (hcurB : reqB.last_sync_at = some cb)
    (hcb : cb < nowA) :
    ∃ s ∈ (SyncMerger.process_sync
        (SyncMerger.process_sync db reqA freshA nowA).2
        reqB freshB nowB).1.annotations,
      s.id = some i ∧ s.deleted = true := by
  have hid2 : editA.id.getD (freshA 0) = i := by rw [hid]; rfl
  -- Call A: the reading-state loop leaves annotations alone.
  have hrsA := (mergeReadingStates_tables reqA.device_id nowA
    reqA.reading_states db).1
  have hr1 : AnnotationQueries.get_by_id
      (SyncMerger.mergeReadingStates db reqA.device_id nowA
        reqA.reading_states).2 i = some r := by
    rw [get_by_id_congr db _ i hrsA]
    exact hr
  -- Call A's annotation loop is exactly the soft delete of `i`.
  have hmerge := mergeAnnotationEdit_win_deleted
    (SyncMerger.mergeReadingStates db reqA.device_id nowA
      reqA.reading_states).2 editA (freshA 0) nowA r
    (by rw [hid2]; exact hr1) ht hdel
  have hloopA : (SyncMerger.mergeAnnotationEdits
      (SyncMerger.mergeReadingStates db reqA.device_id nowA
        reqA.reading_states).2 nowA freshA 0 reqA.annotations).2 =
      AnnotationQueries.soft_delete
        (SyncMerger.mergeReadingStates db reqA.device_id nowA
          reqA.reading_states).2 i nowA := by
    rw [hannA]
    unfold SyncMerger.mergeAnnotationEdits
    simp only [hmerge, hid2]
    rfl
  -- The tombstoned row sits in A's final store.
  have hr2 : db.annotations.find? (fun a => a.id == i) = some r := hr
  have hrmem : r ∈ db.annotations := List.mem_of_find?_eq_some hr2
  have hrid := List.find?_some hr2
  have htombmem : ({ r with deleted_at := some nowA, updated_at := nowA }
      : AnnotationRow) ∈
      (SyncMerger.process_sync db reqA freshA nowA).2.annotations := by
    rw [process_sync_db_eq, (update_last_sync_tables _ _ _).2, hloopA]
    show _ ∈ (AnnotationQueries.soft_delete _ i nowA).annotations
    unfold AnnotationQueries.soft_delete
    show _ ∈ List.map _ _
    rw [hrsA]
    have himg : (if r.id == i && r.deleted_at.isNone then
        ({ r with deleted_at := some nowA, updated_at := nowA }
          : AnnotationRow)
        else r) =
        { r with deleted_at := some nowA, updated_at := nowA } := by
      rw [if_pos (by rw [hclean]; simpa using hrid)]
    rw [← himg]
    exact List.mem_map_of_mem _ hrmem
  -- Call B: pull-only, so its store is A's and the delta filter applies.
  refine ⟨SyncMerger.toAnnotationSync
    { r with deleted_at := some nowA, updated_at := nowA }, ?_, ?_, ?_⟩
  · rw [process_sync_response_eq, hrsB, hannB, hcurB]
    unfold SyncMerger.mergeReadingStates SyncMerger.mergeAnnotationEdits
    exact mem_delta_ann _ cb _ htombmem (by simpa using hcb)
  · have hri : r.id = i := by simpa using hrid
    simp [SyncMerger.toAnnotationSync, hri]
  · simp [SyncMerger.toAnnotationSync]

/-- Witness for C4: annotation 5 (clean, `updated_at = 6`) soft-deleted
by device A at server time 20; device B pulls with cursor 4 and
receives the tombstone. -/
theorem sync_tombstone_propagates_witness :
    (AnnotationQueries.get_by_id
      { reading_states := [],
        annotations := [{ id := 5, book_id := 1,
                          annotation_type := AnnotationType.highlight,
                          location_start := 2, location_end := some 3,
                          content := none, style := none,
                          updated_at := 6, deleted_at := none }],
        devices := [{ id := 9, last_sync_at := none },
                    { id := 10, last_sync_at := some 4 }] } 5 =
      some { id := 5, book_id := 1,
             annotation_type := AnnotationType.highlight,
             location_start := 2, location_end := some 3,
             content := none, style := none,
             updated_at := 6, deleted_at := none } ∧
     (6 : Nat) < 9 ∧ (4 : Nat) < 20) ∧
    (∃ s ∈ (SyncMerger.process_sync
        (SyncMerger.process_sync
          { reading_states := [],
            annotations := [{ id := 5, book_id := 1,
                              annotation_type := AnnotationType.highlight,
                              location_start := 2, location_end := some 3,
                              content := none, style := none,
                              updated_at := 6, deleted_at := none }],
            devices := [{ id := 9, last_sync_at := none },
                        { id := 10, last_sync_at := some 4 }] }
          { device_id := 9, last_sync_at := none, reading_states := [],
            annotations := [{ id := some 5, book_id := 1,
                              annotation_type := AnnotationType.highlight,
                              location_start := 2, location_end := some 3,
                              content := none, style := none,
                              updated_at := 9, deleted := true }] }
          (fun k => k) 20).2
        { device_id := 10, last_sync_at := some 4, reading_states := [],
          annotations := [] }
        (fun k => k) 30).1.annotations,
      s.id = some 5 ∧ s.deleted = true) :=
  ⟨⟨rfl, by decide, by decide⟩,
    sync_tombstone_propagates
      { reading_states := [],
        annotations := [{ id := 5, book_id := 1,
                          annotation_type := AnnotationType.highlight,
                          location_start := 2, location_end := some 3,
                          content := none, style := none,
                          updated_at := 6, deleted_at := none }],
        devices := [{ id := 9, last_sync_at := none },
                    { id := 10, last_sync_at := some 4 }] }
      5
      { id := 5, book_id := 1,
        annotation_type := AnnotationType.highlight,
        location_start := 2, location_end := some 3,
        content := none, style := none,
        updated_at := 6, deleted_at := none }
      { id := some 5, book_id := 1,
        annotation_type := AnnotationType.highlight,
        location_start := 2, location_end := some 3,
        content := none, style := none,
        updated_at := 9, deleted := true }
      { device_id := 9, last_sync_at := none, reading_states := [],
        annotations := [{ id := some 5, book_id := 1,
                          annotation_type := AnnotationType.highlight,
                          location_start := 2, location_end := some 3,
                          content := none, style := none,
                          updated_at := 9, deleted := true }] }
      { device_id := 10, last_sync_at := some 4, reading_states := [],
        annotations := [] }
      (fun k => k) (fun k => k) 20 30 4
      rfl rfl rfl rfl (by decide) rfl rfl rfl rfl (by decide)⟩

/-! ### Claim C1: congruence and key-uniqueness preservation -/

/-- `get_for_book` reads only the `reading_states` table. -/
theorem get_for_book_congr (db db2 : Db) (k : Nat)
    (h : db2.reading_states = db.reading_states) :
    ReadingStateQueries.get_for_book db2 k =
      ReadingStateQueries.get_for_book db k := by
  unfold ReadingStateQueries.get_for_book
  rw [h]

/-- `RsNoop` only inspects the `reading_states` table. -/
theorem rsNoop_congr (c : ReadingStateSync) (db db2 : Db)
    (h : db2.reading_states = db.reading_states)
    (hn : RsNoop c db) : RsNoop c db2 := by
  obtain ⟨r, hr, hts⟩ := hn
  exact ⟨r, by rw [get_for_book_congr db db2 c.book_id h]; exact hr, hts⟩

/-- `AnnNoop` only inspects the `annotations` table. -/
theorem annNoop_congr (i : Nat) (c : AnnotationSync) (db db2 : Db)
    (h : db2.annotations = db.annotations)
    (hn : AnnNoop i c db) : AnnNoop i c db2 := by
  unfold AnnNoop at hn ⊢
  rw [get_by_id_congr db db2 i h]
  exact hn

/-- `AnnNoopAll` only inspects the `annotations` table. -/
theorem annNoopAll_congr (fresh : Nat → Nat) :
    ∀ (l : List AnnotationSync) (k : Nat) (db db2 : Db),
    db2.annotations = db.annotations →
    AnnNoopAll fresh k l db → AnnNoopAll fresh k l db2 := by
  intro l
  induction l with
  | nil => intro k db db2 _ _; trivial
  | cons c rest ih =>
    intro k db db2 h hn
    exact ⟨annNoop_congr _ c db db2 h hn.1, ih (k + 1) db db2 h hn.2⟩

/-- A key-preserving rewrite of the rows keeps the key list
(reading states). -/
theorem map_map_key_rs (l : List ReadingStateRow)
    (g : ReadingStateRow → ReadingStateRow)
    (h : ∀ r, (g r).book_id = r.book_id) :
    (l.map g).map (fun r => r.book_id) = l.map (fun r => r.book_id) := by
  induction l with
  | nil => rfl
  | cons r l ih => simp only [List.map_cons, h r, ih]

/-- A key-preserving rewrite of the rows keeps the key list
(annotations). -/
theorem map_map_key_ann2 (l : List AnnotationRow)
    (g : AnnotationRow → AnnotationRow)
    (h : ∀ a, (g a).id = a.id) :
    (l.map g).map (fun a => a.id) = l.map (fun a => a.id) := by
  induction l with
  | nil => rfl
  | cons a l ih => simp only [List.map_cons, h a, ih]

/-- Appending a fresh element keeps a list duplicate-free. -/
theorem nodup_append_singleton {α : Type} (l : List α) (x : α)
    (h : l.Nodup) (hx : x ∉ l) : (l ++ [x]).Nodup := by
  induction l with
  | nil => simp
  | cons a l ih =>
    rw [List.cons_append, List.nodup_cons]
    rw [List.nodup_cons] at h
    refine ⟨?_, ih h.2 (fun hm => hx (List.mem_cons_of_mem a hm))⟩
    intro hmem
    rcases List.mem_append.mp hmem with hm | hm
    · exact h.1 hm
    · simp at hm
      subst hm
      exact hx (List.mem_cons_self a l)

/-- A key whose `any`-probe fails is not among the stored keys
(reading states). -/
theorem key_not_mem_rs (l : List ReadingStateRow) (b : Nat)
    (hp : ¬ l.any (fun r => r.book_id == b) = true) :
    b ∉ l.map (fun r => r.book_id) := by
  intro hmem
  obtain ⟨r, hr, hrb⟩ := List.mem_map.mp hmem
  exact hp (List.any_eq_true.mpr ⟨r, hr, by simp [hrb]⟩)

/-- A key whose `any`-probe fails is not among the stored keys
(annotations). -/
theorem key_not_mem_ann (l : List AnnotationRow) (b : Nat)
    (hp : ¬ l.any (fun a => a.id == b) = true) :
    b ∉ l.map (fun a => a.id) := by
  intro hmem
  obtain ⟨a, ha, hab⟩ := List.mem_map.mp hmem
  exact hp (List.any_eq_true.mpr ⟨a, ha, by simp [hab]⟩)

/-- The reading-state upsert preserves the schema's key uniqueness. -/
theorem wf_rs_upsert (db : Db) (u : ReadingStateUpsert) (now : Nat)
    (hwf : Db.wf db) : Db.wf (ReadingStateQueries.upsert db u now) := by
  obtain ⟨h1, h2⟩ := hwf
  refine ⟨?_, ?_⟩
  · by_cases hp : db.reading_states.any
        (fun r => r.book_id == u.book_id) = true
    · have hrows : (ReadingStateQueries.upsert db u now).reading_states =
          db.reading_states.map (fun r =>
            if r.book_id == u.book_id then
              { book_id := u.book_id, device_id := u.device_id,
                location := u.location, updated_at := now }
            else r) := by
        unfold ReadingStateQueries.upsert
        rw [if_pos hp]
      rw [hrows, map_map_key_rs db.reading_states _
        (by intro r
            by_cases h : (r.book_id == u.book_id) = true
            · simp at h; simp [h]
            · simp [h])]
      exact h1
    · have hrows : (ReadingStateQueries.upsert db u now).reading_states =
          db.reading_states ++
            [{ book_id := u.book_id, device_id := u.device_id,
               location := u.location, updated_at := now }] := by
        unfold ReadingStateQueries.upsert
        rw [if_neg hp]
      rw [hrows, List.map_append]
      exact nodup_append_singleton _ _ h1
        (key_not_mem_rs db.reading_states u.book_id hp)
  · rw [(rs_upsert_tables db u now).1]
    exact h2

/-- The annotation upsert preserves the schema's key uniqueness. -/
theorem wf_ann_upsert (db : Db) (u : AnnotationUpsert) (now : Nat)
    (hwf : Db.wf db) : Db.wf (AnnotationQueries.upsert db u now) := by
  obtain ⟨h1, h2⟩ := hwf
  refine ⟨?_, ?_⟩
  · rw [(ann_upsert_tables db u now).1]
    exact h1
  · by_cases hp : db.annotations.any (fun a => a.id == u.id) = true
    · have hrows : (AnnotationQueries.upsert db u now).annotations =
          db.annotations.map (fun a =>
            if a.id == u.id then
              { id := u.id, book_id := a.book_id,
                annotation_type := u.annotation_type,
                location_start := u.location_start,
                location_end := u.location_end,
                content := u.content, style := u.style,
                updated_at := now, deleted_at := none }
            else a) := by
        unfold AnnotationQueries.upsert
        rw [if_pos hp]
      rw [hrows, map_map_key_ann2 db.annotations _
        (ann_upsert_map_keeps_id u now)]
      exact h2
    · have hrows : (AnnotationQueries.upsert db u now).annotations =
          db.annotations ++
            [{ id := u.id, book_id := u.book_id,
               annotation_type := u.annotation_type,
               location_start := u.location_start,
               location_end := u.location_end,
               content := u.content, style := u.style,
               updated_at := now, deleted_at := none }] := by
        unfold AnnotationQueries.upsert
        rw [if_neg hp]
      rw [hrows, List.map_append]
      exact nodup_append_singleton _ _ h2
        (key_not_mem_ann db.annotations u.id hp)

/-- Soft deletion preserves the schema's key uniqueness. -/
theorem wf_soft_delete (db : Db) (i : Nat) (now : Nat)
    (hwf : Db.wf db) : Db.wf (AnnotationQueries.soft_delete db i now) := by
  obtain ⟨h1, h2⟩ := hwf
  refine ⟨h1, ?_⟩
  show ((AnnotationQueries.soft_delete db i now).annotations.map
    (fun a => a.id)).Nodup
  unfold AnnotationQueries.soft_delete
  rw [show ({ db with annotations := db.annotations.map _ } : Db).annotations
      = db.annotations.map (fun a =>
          if a.id == i && a.deleted_at.isNone then
            { a with deleted_at := some now, updated_at := now }
          else a) from rfl,
    map_map_key_ann2 db.annotations _ (soft_delete_map_keeps_id i now)]
  exact h2

/-- A reading-state merge preserves the schema's key uniqueness. -/
theorem wf_mergeReadingState (db : Db) (dev : Nat) (c : ReadingStateSync)
    (now : Nat) (hwf : Db.wf db) :
    Db.wf (SyncMerger.mergeReadingState db dev c now).2 := by
  cases hfind : ReadingStateQueries.get_for_book db c.book_id with
  | none =>
    rw [mergeReadingState_absent db dev c now hfind]
    exact wf_rs_upsert db _ now hwf
  | some server =>
    by_cases h1 : c.updated_at < server.updated_at
    · rw [mergeReadingState_lose db dev c now server hfind h1]
      exact hwf
    · by_cases h2 : server.updated_at < c.updated_at
      · rw [mergeReadingState_win db dev c now server hfind h2]
        exact wf_rs_upsert db _ now hwf
      · rw [mergeReadingState_tie db dev c now server hfind (by omega)]
        exact hwf

/-- The reading-state merge loop preserves key uniqueness. -/
theorem wf_mergeReadingStates (dev : Nat) (now : Nat) :
    ∀ (l : List ReadingStateSync) (db : Db), Db.wf db →
    Db.wf (SyncMerger.mergeReadingStates db dev now l).2 := by
  intro l
  induction l with
  | nil => exact fun db h => h
  | cons c rest ih =>
    intro db hwf
    exact ih _ (wf_mergeReadingState db dev c now hwf)

/-- An annotation merge preserves the schema's key uniqueness. -/
theorem wf_mergeAnnotationEdit (db : Db) (c : AnnotationSync) (fid : Nat)
    (now : Nat) (hwf : Db.wf db) :
    Db.wf (SyncMerger.mergeAnnotationEdit db c fid now).2 := by
  cases hfind : AnnotationQueries.get_by_id db (c.id.getD fid) with
  | none =>
    cases hd : c.deleted with
    | false =>
      rw [mergeAnnotationEdit_absent db c fid now hfind hd]
      exact wf_ann_upsert db _ now hwf
    | true =>
      rw [mergeAnnotationEdit_absent_deleted db c fid now hfind hd]
      exact hwf
  | some server =>
    by_cases h1 : c.updated_at < server.updated_at
    · rw [mergeAnnotationEdit_lose db c fid now server hfind h1]
      exact hwf
    · by_cases h2 : server.updated_at < c.updated_at
      · cases hd : c.deleted with
        | false =>
          rw [mergeAnnotationEdit_win_upsert db c fid now server hfind h2 hd]
          exact wf_ann_upsert db _ now hwf
        | true =>
          rw [mergeAnnotationEdit_win_deleted db c fid now server hfind h2 hd]
          exact wf_soft_delete db _ now hwf
      · rw [mergeAnnotationEdit_tie db c fid now server hfind (by omega)]
        exact hwf

/-- The annotation merge loop preserves key uniqueness. -/
theorem wf_mergeAnnotationEdits (now : Nat) (fresh : Nat → Nat) :
    ∀ (l : List AnnotationSync) (k : Nat) (db : Db), Db.wf db →
    Db.wf (SyncMerger.mergeAnnotationEdits db now fresh k l).2 := by
  intro l
  induction l with
  | nil => exact fun k db h => h
  | cons c rest ih =>
    intro k db hwf
    exact ih (k + 1) _ (wf_mergeAnnotationEdit db c (fresh k) now hwf)

/-- Advancing the cursor preserves key uniqueness. -/
theorem wf_update_last_sync (db : Db) (i : Nat) (t : Nat)
    (hwf : Db.wf db) : Db.wf (DeviceQueries.update_last_sync db i t) := by
  obtain ⟨h1, h2⟩ := hwf
  exact ⟨h1, h2⟩

/-! ### Claim C1: what a first application establishes and a replay sees -/

/-- After any reading-state upsert stamped at `now`, an edit older than
`now` replays as a no-op. -/
theorem rsNoop_upsert (db : Db) (u : ReadingStateUpsert) (now : Nat)
    (c : ReadingStateSync) (hts : c.updated_at < now) (hn : RsNoop c db) :
    RsNoop c (ReadingStateQueries.upsert db u now) := by
  obtain ⟨r, hr, hle⟩ := hn
  by_cases hk : c.book_id = u.book_id
  · refine ⟨{ book_id := u.book_id, device_id := u.device_id,
              location := u.location, updated_at := now }, ?_, ?_⟩
    · rw [get_for_book_upsert, if_pos hk]
    · exact Nat.le_of_lt hts
  · exact ⟨r, by rw [get_for_book_upsert, if_neg hk]; exact hr, hle⟩

/-- Applying a reading-state edit whose timestamp precedes the server
clock leaves its own replay a no-op. -/
theorem rsNoop_of_merge (db : Db) (dev : Nat) (c : ReadingStateSync)
    (now : Nat) (hts : c.updated_at < now) :
    RsNoop c (SyncMerger.mergeReadingState db dev c now).2 := by
  cases hfind : ReadingStateQueries.get_for_book db c.book_id with
  | none =>
    rw [mergeReadingState_absent db dev c now hfind]
    refine ⟨{ book_id := c.book_id, device_id := dev,
              location := c.location, updated_at := now }, ?_,
      Nat.le_of_lt hts⟩
    rw [get_for_book_upsert, if_pos rfl]
  | some server =>
    by_cases h1 : c.updated_at < server.updated_at
    · rw [mergeReadingState_lose db dev c now server hfind h1]
      exact ⟨server, hfind, by omega⟩
    · by_cases h2 : server.updated_at < c.updated_at
      · rw [mergeReadingState_win db dev c now server hfind h2]
        refine ⟨{ book_id := c.book_id, device_id := dev,
                  location := c.location, updated_at := now }, ?_,
          Nat.le_of_lt hts⟩
        rw [get_for_book_upsert, if_pos rfl]
      · rw [mergeReadingState_tie db dev c now server hfind (by omega)]
        exact ⟨server, hfind, by omega⟩

/-- A no-op replay survives any other reading-state merge stamped at
the same call. -/
theorem rsNoop_preserved (db : Db) (dev : Nat)
    (c c2 : ReadingStateSync) (now : Nat)
    (hts : c.updated_at < now) (hn : RsNoop c db) :
    RsNoop c (SyncMerger.mergeReadingState db dev c2 now).2 := by
  cases hfind : ReadingStateQueries.get_for_book db c2.book_id with
  | none =>
    rw [mergeReadingState_absent db dev c2 now hfind]
    exact rsNoop_upsert db _ now c hts hn
  | some server =>
    by_cases h1 : c2.updated_at < server.updated_at
    · rw [mergeReadingState_lose db dev c2 now server hfind h1]
      exact hn
    · by_cases h2 : server.updated_at < c2.updated_at
      · rw [mergeReadingState_win db dev c2 now server hfind h2]
        exact rsNoop_upsert db _ now c hts hn
      · rw [mergeReadingState_tie db dev c2 now server hfind (by omega)]
        exact hn

/-- A no-op replay survives a whole reading-state merge loop. -/
theorem rsNoop_preserved_list (dev now : Nat) :
    ∀ (l : List ReadingStateSync) (db : Db) (c : ReadingStateSync),
    c.updated_at < now → RsNoop c db →
    RsNoop c (SyncMerger.mergeReadingStates db dev now l).2 := by
  intro l
  induction l with
  | nil => exact fun db c _ hn => hn
  | cons c2 rest ih =>
    intro db c hts hn
    exact ih _ c hts (rsNoop_preserved db dev c c2 now hts hn)

/-- After the first call's reading-state loop, every edit of the batch
replays as a no-op. -/
theorem rsNoop_established (dev now : Nat) :
    ∀ (l : List ReadingStateSync) (db : Db),
    (∀ c ∈ l, c.updated_at < now) →
    ∀ c ∈ l, RsNoop c (SyncMerger.mergeReadingStates db dev now l).2 := by
  intro l
  induction l with
  | nil => intro db _ c hc; cases hc
  | cons c0 rest ih =>
    intro db hlt c hc
    rcases List.mem_cons.mp hc with hc1 | hc1
    · subst hc1
      exact rsNoop_preserved_list dev now rest _ c
        (hlt c (List.mem_cons_self c rest))
        (rsNoop_of_merge db dev c now (hlt c (List.mem_cons_self c rest)))
    · exact ih _ (fun c2 h2 => hlt c2 (List.mem_cons_of_mem c0 h2)) c hc1

/-- A no-op reading-state replay writes nothing. -/
theorem mergeReadingState_noop (db : Db) (dev : Nat)
    (c : ReadingStateSync) (now2 : Nat) (hn : RsNoop c db) :
    (SyncMerger.mergeReadingState db dev c now2).2 = db := by
  obtain ⟨r, hr, hle⟩ := hn
  by_cases h1 : c.updated_at < r.updated_at
  · rw [mergeReadingState_lose db dev c now2 r hr h1]
  · rw [mergeReadingState_tie db dev c now2 r hr (by omega)]

/-- A batch of no-op reading-state replays leaves the store unchanged. -/
theorem mergeReadingStates_noop (dev now2 : Nat) :
    ∀ (l : List ReadingStateSync) (db : Db),
    (∀ c ∈ l, RsNoop c db) →
    (SyncMerger.mergeReadingStates db dev now2 l).2 = db := by
  intro l
  induction l with
  | nil => exact fun db _ => rfl
  | cons c rest ih =>
    intro db hn
    have hstep := mergeReadingState_noop db dev c now2
      (hn c (List.mem_cons_self c rest))
    show (SyncMerger.mergeReadingStates
      (SyncMerger.mergeReadingState db dev c now2).2 dev now2 rest).2 = db
    rw [hstep]
    exact ih db (fun c2 h2 => hn c2 (List.mem_cons_of_mem c h2))

/-- After any annotation upsert stamped at `now`, an edit older than
`now` replays as a no-op. -/
theorem annNoop_upsert (db : Db) (u : AnnotationUpsert) (now : Nat)
    (i : Nat) (c : AnnotationSync) (hts : c.updated_at < now)
    (hn : AnnNoop i c db) :
    AnnNoop i c (AnnotationQueries.upsert db u now) := by
  by_cases hk : i = u.id
  · subst hk
    unfold AnnNoop
    cases hprev : AnnotationQueries.get_by_id db u.id with
    | none =>
      rw [get_by_id_upsert_absent db u now hprev]
      exact Or.inl (Nat.le_of_lt hts)
    | some r =>
      rw [get_by_id_upsert_present db u now r hprev]
      exact Or.inl (Nat.le_of_lt hts)
  · unfold AnnNoop at hn ⊢
    rw [get_by_id_upsert_ne db u now i hk]
    exact hn

/-- After any soft delete stamped at `now`, an edit older than `now`
replays as a no-op. -/
theorem annNoop_soft_delete (db : Db) (j now i : Nat)
    (c : AnnotationSync) (hts : c.updated_at < now)
    (hn : AnnNoop i c db) :
    AnnNoop i c (AnnotationQueries.soft_delete db j now) := by
  by_cases hk : i = j
  · subst hk
    unfold AnnNoop at hn ⊢
    rw [get_by_id_soft_delete_eq db i now]
    cases hprev : AnnotationQueries.get_by_id db i with
    | none => rw [hprev] at hn; exact hn
    | some a =>
      rw [hprev] at hn
      rw [Option.map_some']
      by_cases hd : a.deleted_at.isNone = true
      · rw [if_pos hd]
        exact Or.inl (Nat.le_of_lt hts)
      · rw [if_neg hd]
        exact hn
  · unfold AnnNoop at hn ⊢
    rw [get_by_id_soft_delete_ne db j now i hk]
    exact hn

/-- A no-op annotation replay survives any other annotation merge
stamped at the same call. -/
theorem annNoop_preserved (db : Db) (c2 : AnnotationSync) (fid2 now : Nat)
    (i : Nat) (c : AnnotationSync) (hts : c.updated_at < now)
    (hn : AnnNoop i c db) :
    AnnNoop i c (SyncMerger.mergeAnnotationEdit db c2 fid2 now).2 := by
  cases hfind : AnnotationQueries.get_by_id db (c2.id.getD fid2) with
  | none =>
    cases hd : c2.deleted with
    | false =>
      rw [mergeAnnotationEdit_absent db c2 fid2 now hfind hd]
      exact annNoop_upsert db _ now i c hts hn
    | true =>
      rw [mergeAnnotationEdit_absent_deleted db c2 fid2 now hfind hd]
      exact hn
  | some server =>
    by_cases h1 : c2.updated_at < server.updated_at
    · rw [mergeAnnotationEdit_lose db c2 fid2 now server hfind h1]
      exact hn
    · by_cases h2 : server.updated_at < c2.updated_at
      · cases hd : c2.deleted with
        | false =>
          rw [mergeAnnotationEdit_win_upsert db c2 fid2 now server hfind
            h2 hd]
          exact annNoop_upsert db _ now i c hts hn
        | true =>
          rw [mergeAnnotationEdit_win_deleted db c2 fid2 now server hfind
            h2 hd]
          exact annNoop_soft_delete db _ now i c hts hn
      · rw [mergeAnnotationEdit_tie db c2 fid2 now server hfind (by omega)]
        exact hn

/-- A no-op annotation replay survives a whole annotation merge loop. -/
theorem annNoop_preserved_list (now : Nat) (fresh : Nat → Nat) :
    ∀ (l : List AnnotationSync) (k : Nat) (db : Db) (i : Nat)
      (c : AnnotationSync),
    c.updated_at < now → AnnNoop i c db →
    AnnNoop i c (SyncMerger.mergeAnnotationEdits db now fresh k l).2 := by
  intro l
  induction l with
  | nil => exact fun k db i c _ hn => hn
  | cons c2 rest ih =>
    intro k db i c hts hn
    exact ih (k + 1) _ i c hts
      (annNoop_preserved db c2 (fresh k) now i c hts hn)

/-- Applying an annotation edit whose timestamp precedes the server
clock leaves its own replay a no-op. -/
theorem annNoop_of_merge (db : Db) (c : AnnotationSync) (fid now : Nat)
    (hts : c.updated_at < now) :
    AnnNoop (c.id.getD fid) c
      (SyncMerger.mergeAnnotationEdit db c fid now).2 := by
  cases hfind : AnnotationQueries.get_by_id db (c.id.getD fid) with
  | none =>
    cases hd : c.deleted with
    | false =>
      rw [mergeAnnotationEdit_absent db c fid now hfind hd]
      unfold AnnNoop
      rw [get_by_id_upsert_absent db _ now hfind]
      exact Or.inl (Nat.le_of_lt hts)
    | true =>
      rw [mergeAnnotationEdit_absent_deleted db c fid now hfind hd]
      unfold AnnNoop
      rw [hfind]
      exact hd
  | some server =>
    by_cases h1 : c.updated_at < server.updated_at
    · rw [mergeAnnotationEdit_lose db c fid now server hfind h1]
      unfold AnnNoop
      rw [hfind]
      exact Or.inl (by omega)
    · by_cases h2 : server.updated_at < c.updated_at
      · cases hd : c.deleted with
        | false =>
          rw [mergeAnnotationEdit_win_upsert db c fid now server hfind
            h2 hd]
          unfold AnnNoop
          rw [get_by_id_upsert_present db _ now server hfind]
          exact Or.inl (Nat.le_of_lt hts)
        | true =>
          rw [mergeAnnotationEdit_win_deleted db c fid now server hfind
            h2 hd]
          unfold AnnNoop
          rw [get_by_id_soft_delete_eq db _ now, hfind, Option.map_some']
          by_cases hdel : server.deleted_at.isNone = true
          · rw [if_pos hdel]
            exact Or.inl (Nat.le_of_lt hts)
          · rw [if_neg hdel]
            refine Or.inr ⟨hd, ?_⟩
            intro hnone
            rw [hnone] at hdel
            exact hdel rfl
      · rw [mergeAnnotationEdit_tie db c fid now server hfind (by omega)]
        unfold AnnNoop
        rw [hfind]
        exact Or.inl (by omega)

/-- After the first call's annotation loop, the whole batch replays as
a no-op. -/
theorem annNoopAll_established (now : Nat) (fresh : Nat → Nat) :
    ∀ (l : List AnnotationSync) (k : Nat) (db : Db),
    (∀ c ∈ l, c.updated_at < now) →
    AnnNoopAll fresh k l
      (SyncMerger.mergeAnnotationEdits db now fresh k l).2 := by
  intro l
  induction l with
  | nil => intro k db _; trivial
  | cons c rest ih =>
    intro k db hlt
    have hts := hlt c (List.mem_cons_self c rest)
    refine ⟨?_, ?_⟩
    · exact annNoop_preserved_list now fresh rest (k + 1) _ _ c hts
        (annNoop_of_merge db c (fresh k) now hts)
    · exact ih (k + 1) _ (fun c2 h2 => hlt c2 (List.mem_cons_of_mem c h2))

/-- A no-op annotation replay writes nothing (key uniqueness makes the
tombstoned soft-delete a true no-op). -/
theorem mergeAnnotationEdit_noop (db : Db) (c : AnnotationSync)
    (fid now2 : Nat) (hwf : Db.wf db)
    (hn : AnnNoop (c.id.getD fid) c db) :
    (SyncMerger.mergeAnnotationEdit db c fid now2).2 = db := by
  unfold AnnNoop at hn
  cases hfind : AnnotationQueries.get_by_id db (c.id.getD fid) with
  | none =>
    rw [hfind] at hn
    rw [mergeAnnotationEdit_absent_deleted db c fid now2 hfind hn]
  | some r =>
    rw [hfind] at hn
    by_cases h1 : c.updated_at < r.updated_at
    · rw [mergeAnnotationEdit_lose db c fid now2 r hfind h1]
    · by_cases h2 : r.updated_at < c.updated_at
      · rcases hn with hle | ⟨hd, hdel⟩
        · omega
        · rw [mergeAnnotationEdit_win_deleted db c fid now2 r hfind h2 hd]
          exact soft_delete_noop db (c.id.getD fid) now2 r hwf.2 hfind hdel
      · rw [mergeAnnotationEdit_tie db c fid now2 r hfind (by omega)]

/-- When every edit of the batch carries an explicit id, the
`Uuid::now_v7` source is never consulted: the no-op-replay property is
independent of which draw sequence (and starting position) a call
uses. -/
theorem annNoopAll_fresh_irrel (fresh1 fresh2 : Nat → Nat) :
    ∀ (l : List AnnotationSync) (k1 k2 : Nat) (db : Db),
    (∀ c ∈ l, c.id.isSome = true) →
    AnnNoopAll fresh1 k1 l db → AnnNoopAll fresh2 k2 l db := by
  intro l
  induction l with
  | nil => intro k1 k2 db _ _; trivial
  | cons c rest ih =>
    intro k1 k2 db hids hn
    refine ⟨?_, ih (k1 + 1) (k2 + 1) db
      (fun c2 h2 => hids c2 (List.mem_cons_of_mem c h2)) hn.2⟩
    have hs := hids c (List.mem_cons_self c rest)
    cases hc : c.id with
    | none => rw [hc] at hs; cases hs
    | some i =>
      have h1 : c.id.getD (fresh1 k1) = i := by rw [hc]; rfl
      have hhead := hn.1
      rw [h1] at hhead
      simpa using hhead

/-- A batch of no-op annotation replays leaves the store unchanged. -/
theorem mergeAnnotationEdits_noop (now2 : Nat) (fresh : Nat → Nat) :
    ∀ (l : List AnnotationSync) (k : Nat) (db : Db), Db.wf db →
    AnnNoopAll fresh k l db →
    (SyncMerger.mergeAnnotationEdits db now2 fresh k l).2 = db := by
  intro l
  induction l with
  | nil => exact fun k db _ _ => rfl
  | cons c rest ih =>
    intro k db hwf hn
    have hstep := mergeAnnotationEdit_noop db c (fresh k) now2 hwf hn.1
    show (SyncMerger.mergeAnnotationEdits
      (SyncMerger.mergeAnnotationEdit db c (fresh k) now2).2 now2 fresh
      (k + 1) rest).2 = db
    rw [hstep]
    exact ih (k + 1) db hwf hn.2

/-- C1 counterexample: replaying an identical one-edit request does
not return an equal conflict set. Server row for book 1 has
`updated_at = 5`; the edit carries `updated_at = 10`; the first call
(server time 20) applies it, stamping the row `updated_at = NOW() = 20`
and reporting no conflict; the replay (server time 30) then sees a
strictly newer server row and reports a `ServerWins` conflict. -/
theorem sync_replay_cex :
    ¬ ((SyncMerger.process_sync
        (SyncMerger.process_sync
          { reading_states := [{ book_id := 1, device_id := 2,
                                 location := 3, updated_at := 5 }],
            annotations := [],
            devices := [{ id := 9, last_sync_at := none }] }
          { device_id := 9, last_sync_at := some 0,
            reading_states := [{ book_id := 1, location := 7,
                                 updated_at := 10 }],
            annotations := [] }
          (fun k => k) 20).2
        { device_id := 9, last_sync_at := some 0,
          reading_states := [{ book_id := 1, location := 7,
                               updated_at := 10 }],
          annotations := [] }
        (fun k => k) 30).1.conflicts =
      (SyncMerger.process_sync
        { reading_states := [{ book_id := 1, device_id := 2,
                               location := 3, updated_at := 5 }],
          annotations := [],
          devices := [{ id := 9, last_sync_at := none }] }
        { device_id := 9, last_sync_at := some 0,
          reading_states := [{ book_id := 1, location := 7,
                               updated_at := 10 }],
          annotations := [] }
        (fun k => k) 20).1.conflicts) := by
  decide

/-- C1 (amended): under the schema's key uniqueness, replaying an
identical request whose edit timestamps all precede the first call's
server time and whose annotation edits all carry explicit ids leaves
the persisted reading-state and annotation rows exactly as the first
call left them — even though the two calls draw from different
`Uuid::now_v7` sources (`fresh` vs `fresh2`), as the source does.
But the replay's conflict set can differ from the first call's (see
the counterexample): because upserts stamp rows with the server clock
rather than the client timestamp, each edit the first call applied is
re-reported as a `ServerWins` conflict by the replay. The explicit-id
hypothesis is necessary: an id-less annotation edit resolves to a
fresh server uuid on every call, so replaying it would insert a second
row under a new id rather than replay onto the first call's row. -/
theorem sync_replay_rows_stable (db : Db) (request : SyncRequest)
    (fresh fresh2 : Nat → Nat) (now1 now2 : Nat)
    (hwf : Db.wf db)
    (hrs : ∀ c ∈ request.reading_states, c.updated_at < now1)
    (hann : ∀ c ∈ request.annotations, c.updated_at < now1)
    (hids : ∀ c ∈ request.annotations, c.id.isSome = true) :
    (SyncMerger.process_sync (SyncMerger.process_sync db request fresh
      now1).2 request fresh2 now2).2.reading_states =
      (SyncMerger.process_sync db request fresh now1).2.reading_states ∧
    (SyncMerger.process_sync (SyncMerger.process_sync db request fresh
      now1).2 request fresh2 now2).2.annotations =
      (SyncMerger.process_sync db request fresh now1).2.annotations := by
  have hF1 : ∀ c ∈ request.reading_states, RsNoop c
      (SyncMerger.mergeReadingStates db request.device_id now1
        request.reading_states).2 :=
    rsNoop_established request.device_id now1 request.reading_states db hrs
  have hAnnTab := (mergeAnnotationEdits_tables now1 fresh
    request.annotations
    (SyncMerger.mergeReadingStates db request.device_id now1
      request.reading_states).2 0).1
  have hF1' : ∀ c ∈ request.reading_states, RsNoop c
      (SyncMerger.process_sync db request fresh now1).2 := by
    intro c hc
    rw [process_sync_db_eq]
    exact rsNoop_congr c _ _ (update_last_sync_tables _ _ _).1
      (rsNoop_congr c _ _ hAnnTab (hF1 c hc))
  have hF3 : AnnNoopAll fresh2 0 request.annotations
      (SyncMerger.process_sync db request fresh now1).2 := by
    rw [process_sync_db_eq]
    exact annNoopAll_fresh_irrel fresh fresh2 request.annotations 0 0 _ hids
      (annNoopAll_congr fresh request.annotations 0 _ _
        (update_last_sync_tables _ _ _).2
        (annNoopAll_established now1 fresh request.annotations 0 _ hann))
  have hF4 : Db.wf (SyncMerger.process_sync db request fresh now1).2 := by
    rw [process_sync_db_eq]
    exact wf_update_last_sync _ _ _
      (wf_mergeAnnotationEdits now1 fresh request.annotations 0 _
        (wf_mergeReadingStates request.device_id now1
          request.reading_states db hwf))
  have hstep2 : (SyncMerger.mergeReadingStates
      (SyncMerger.process_sync db request fresh now1).2
      request.device_id now2 request.reading_states).2 =
      (SyncMerger.process_sync db request fresh now1).2 :=
    mergeReadingStates_noop request.device_id now2
      request.reading_states _ hF1'
  have hstep3 : (SyncMerger.mergeAnnotationEdits
      (SyncMerger.mergeReadingStates
        (SyncMerger.process_sync db request fresh now1).2
        request.device_id now2 request.reading_states).2
      now2 fresh2 0 request.annotations).2 =
      (SyncMerger.process_sync db request fresh now1).2 := by
    rw [hstep2]
    exact mergeAnnotationEdits_noop now2 fresh2 request.annotations 0 _
      hF4 hF3
  constructor
  · rw [process_sync_db_eq (SyncMerger.process_sync db request fresh
      now1).2 request fresh2 now2,
      (update_last_sync_tables _ _ _).1, hstep3]
  · rw [process_sync_db_eq (SyncMerger.process_sync db request fresh
      now1).2 request fresh2 now2,
      (update_last_sync_tables _ _ _).2, hstep3]

/-- Witness for C1's amended theorem: a request carrying one
reading-state edit (applied through the conflict-branch upsert), one
tombstoning deletion, one annotation update and one explicit-id insert,
replayed at a later server time with a different `Uuid::now_v7` draw
sequence. -/
theorem sync_replay_rows_stable_witness :
    (Db.wf { reading_states := [{ book_id := 1, device_id := 2,
                                  location := 3, updated_at := 5 }],
             annotations := [{ id := 5, book_id := 1,
                               annotation_type := AnnotationType.note,
                               location_start := 2, location_end := none,
                               content := some 3, style := none,
                               updated_at := 6, deleted_at := none },
                             { id := 6, book_id := 1,
                               annotation_type := AnnotationType.bookmark,
                               location_start := 4, location_end := none,
                               content := none, style := none,
                               updated_at := 15, deleted_at := none }],
             devices := [{ id := 9, last_sync_at := none }] } ∧
     (∀ c ∈ [({ book_id := 1, location := 7, updated_at := 10 }
        : ReadingStateSync)], c.updated_at < 20) ∧
     (∀ c ∈ [({ id := some 5, book_id := 1,
                annotation_type := AnnotationType.note,
                location_start := 8, location_end := none,
                content := some 9, style := none,
                updated_at := 11, deleted := true } : AnnotationSync),
             ({ id := some 6, book_id := 1,
                annotation_type := AnnotationType.bookmark,
                location_start := 12, location_end := none,
                content := none, style := none,
                updated_at := 13, deleted := false } : AnnotationSync),
             ({ id := some 7, book_id := 2,
                annotation_type := AnnotationType.highlight,
                location_start := 14, location_end := some 15,
                content := none, style := some 16,
                updated_at := 17, deleted := false } : AnnotationSync)],
        c.updated_at < 20) ∧
     (∀ c ∈ [({ id := some 5, book_id := 1,
                annotation_type := AnnotationType.note,
                location_start := 8, location_end := none,
                content := some 9, style := none,
                updated_at := 11, deleted := true } : AnnotationSync),
             ({ id := some 6, book_id := 1,
                annotation_type := AnnotationType.bookmark,
                location_start := 12, location_end := none,
                content := none, style := none,
                updated_at := 13, deleted := false } : AnnotationSync),
             ({ id := some 7, book_id := 2,
                annotation_type := AnnotationType.highlight,
                location_start := 14, location_end := some 15,
                content := none, style := some 16,
                updated_at := 17, deleted := false } : AnnotationSync)],
        c.id.isSome = true)) ∧
    ((SyncMerger.process_sync (SyncMerger.process_sync
        { reading_states := [{ book_id := 1, device_id := 2,
                               location := 3, updated_at := 5 }],
          annotations := [{ id := 5, book_id := 1,
                            annotation_type := AnnotationType.note,
                            location_start := 2, location_end := none,
                            content := some 3, style := none,
                            updated_at := 6, deleted_at := none },
                          { id := 6, book_id := 1,
                            annotation_type := AnnotationType.bookmark,
                            location_start := 4, location_end := none,
                            content := none, style := none,
                            updated_at := 15, deleted_at := none }],
          devices := [{ id := 9, last_sync_at := none }] }
        { device_id := 9, last_sync_at := some 0,
          reading_states := [{ book_id := 1, location := 7,
                               updated_at := 10 }],
          annotations := [{ id := some 5, book_id := 1,
                            annotation_type := AnnotationType.note,
                            location_start := 8, location_end := none,
                            content := some 9, style := none,
                            updated_at := 11, deleted := true },
                          { id := some 6, book_id := 1,
                            annotation_type := AnnotationType.bookmark,
                            location_start := 12, location_end := none,
                            content := none, style := none,
                            updated_at := 13, deleted := false },
                          { id := some 7, book_id := 2,
                            annotation_type := AnnotationType.highlight,
                            location_start := 14, location_end := some 15,
                            content := none, style := some 16,
                            updated_at := 17, deleted := false }] }
        (fun k => k + 100) 20).2
      { device_id := 9, last_sync_at := some 0,
        reading_states := [{ book_id := 1, location := 7,
                             updated_at := 10 }],
        annotations := [{ id := some 5, book_id := 1,
                          annotation_type := AnnotationType.note,
                          location_start := 8, location_end := none,
                          content := some 9, style := none,
                          updated_at := 11, deleted := true },
                        { id := some 6, book_id := 1,
                          annotation_type := AnnotationType.bookmark,
                          location_start := 12, location_end := none,
                          content := none, style := none,
                          updated_at := 13, deleted := false },
                        { id := some 7, book_id := 2,
                          annotation_type := AnnotationType.highlight,
                          location_start := 14, location_end := some 15,
                          content := none, style := some 16,
                          updated_at := 17, deleted := false }] }
      (fun k => k + 200) 30).2.reading_states =
      (SyncMerger.process_sync
        { reading_states := [{ book_id := 1, device_id := 2,
                               location := 3, updated_at := 5 }],
          annotations := [{ id := 5, book_id := 1,
                            annotation_type := AnnotationType.note,
                            location_start := 2, location_end := none,
                            content := some 3, style := none,
                            updated_at := 6, deleted_at := none },
                          { id := 6, book_id := 1,
                            annotation_type := AnnotationType.bookmark,
                            location_start := 4, location_end := none,
                            content := none, style := none,
                            updated_at := 15, deleted_at := none }],
          devices := [{ id := 9, last_sync_at := none }] }
        { device_id := 9, last_sync_at := some 0,
          reading_states := [{ book_id := 1, location := 7,
                               updated_at := 10 }],
          annotations := [{ id := some 5, book_id := 1,
                            annotation_type := AnnotationType.note,
                            location_start := 8, location_end := none,
                            content := some 9, style := none,
                            updated_at := 11, deleted := true },
                          { id := some 6, book_id := 1,
                            annotation_type := AnnotationType.bookmark,
                            location_start := 12, location_end := none,
                            content := none, style := none,
                            updated_at := 13, deleted := false },
                          { id := some 7, book_id := 2,
                            annotation_type := AnnotationType.highlight,
                            location_start := 14, location_end := some 15,
                            content := none, style := some 16,
                            updated_at := 17, deleted := false }] }
        (fun k => k + 100) 20).2.reading_states) :=
  ⟨⟨by decide, by decide, by decide, by decide⟩,
    (sync_replay_rows_stable
      { reading_states := [{ book_id := 1, device_id := 2,
                             location := 3, updated_at := 5 }],
        annotations := [{ id := 5, book_id := 1,
                          annotation_type := AnnotationType.note,
                          location_start := 2, location_end := none,
                          content := some 3, style := none,
                          updated_at := 6, deleted_at := none },
                        { id := 6, book_id := 1,
                          annotation_type := AnnotationType.bookmark,
                          location_start := 4, location_end := none,
                          content := none, style := none,
                          updated_at := 15, deleted_at := none }],
        devices := [{ id := 9, last_sync_at := none }] }
      { device_id := 9, last_sync_at := some 0,
        reading_states := [{ book_id := 1, location := 7,
                             updated_at := 10 }],
        annotations := [{ id := some 5, book_id := 1,
                          annotation_type := AnnotationType.note,
                          location_start := 8, location_end := none,
                          content := some 9, style := none,
                          updated_at := 11, deleted := true },
                        { id := some 6, book_id := 1,
                          annotation_type := AnnotationType.bookmark,
                          location_start := 12, location_end := none,
                          content := none, style := none,
                          updated_at := 13, deleted := false },
                        { id := some 7, book_id := 2,
                          annotation_type := AnnotationType.highlight,
                          location_start := 14, location_end := some 15,
                          content := none, style := some 16,
                          updated_at := 17, deleted := false }] }
      (fun k => k + 100) (fun k => k + 200) 20 30
      (by decide) (by decide) (by decide) (by decide)).1⟩

end Ereader
